import Mathlib

/-!
# Contract CLI: a shallow embedding of `main.go`

The program is an interactive command-line client of one smart contract.  Everything it
does is a sequence of calls into the outside world (terminal, file system, ledger node,
contract binding) and into pure library functions (key derivation, signing, hex
conversion).  The embedding keeps the control flow of `main.go` as it is written and makes
the outside world explicit:

* `World` holds the answers of the outside world; every answer may depend on the whole
  history of the run so far;
* `Lib` holds the pure functions of the cryptographic and binding libraries;
* the hex helpers of the `common` package and `strings.TrimSpace` are given as executable
  definitions;
* a run is a function from the history so far to a `Res`: a normal return, a process
  exit with its status, a runtime panic, or (for the menu loop only) a run that is still
  going when the recursion budget is used up.
-/

namespace ContractCLI

/-! ## Data -/

/-- A `common.Address`: the bytes of the address. -/
structure Address where
  bytes : List Nat
  deriving DecidableEq, Repr

/-- A `common.Hash`: the bytes of the hash. -/
structure Hash where
  bytes : List Nat
  deriving DecidableEq, Repr

/-- An `*ecdsa.PrivateKey`, identified by its secret scalar. -/
structure PrivateKey where
  d : Nat
  deriving DecidableEq, Repr

/-- A `*types.Transaction` (legacy): the fields given at construction and the signature
values, which are zero until the transaction is signed. -/
structure Transaction where
  nonce : Nat
  recipient : Option Address
  value : Int
  gasLimit : Nat
  gasPrice : Option Int
  data : List Nat
  v : Nat
  r : Nat
  s : Nat
  deriving DecidableEq, Repr

/-- The fields of a `*types.Receipt` that the program reads. -/
structure Receipt where
  status : Nat
  gasUsed : Nat
  deriving DecidableEq, Repr

/-- A `*simpleStorage.SimpleStorage`: a binding instance bound to an address. -/
structure Instance where
  address : Address
  deriving DecidableEq, Repr

/-- A `*bind.TransactOpts`: the signing key and the chain id the transactor signs for. -/
structure TransactOpts where
  key : PrivateKey
  chainID : Int
  deriving DecidableEq, Repr

/-- One observable step of a run, in program order. -/
inductive Event where
  /-- Text written to standard output (`fmt.Print*`). -/
  | print (s : String)
  /-- Text handed to the logger by `log.Fatal*`; the process exits right after. -/
  | log (s : String)
  /-- The menu was shown (`survey.AskOne`) and the operator gave this answer. -/
  | ask (label : String) (opts : List String) (answer : List String)
  /-- A line was read from standard input. -/
  | readLine (line : String)
  /-- The call `ethclient.Dial`. -/
  | dial (url : String)
  /-- The call `crypto.HexToECDSA`. -/
  | hexToECDSA (hex : String)
  /-- The call `client.PendingNonceAt`. -/
  | pendingNonceAt (a : Address)
  /-- The call `os.ReadFile`. -/
  | readFile (name : String)
  /-- The call `client.NetworkID`. -/
  | networkID
  /-- The call `types.SignTx` with an EIP-155 signer for `chainID`. -/
  | signTx (tx : Transaction) (chainID : Int) (key : PrivateKey)
  /-- The call `client.SendTransaction`. -/
  | sendTransaction (tx : Transaction)
  /-- The call `client.CodeAt`. -/
  | codeAt (a : Address)
  /-- The call `client.TransactionReceipt`. -/
  | transactionReceipt (h : Hash)
  /-- The call `simpleStorage.NewSimpleStorage`. -/
  | newSimpleStorage (a : Address)
  /-- The call `bind.NewKeyedTransactorWithChainID`. -/
  | newKeyedTransactor (key : PrivateKey) (chainID : Int)
  /-- The call `instance.Set`. -/
  | setCall (inst : Instance) (auth : TransactOpts) (value : Int)
  /-- The call `instance.Get`. -/
  | getCall (inst : Instance)
  deriving DecidableEq, Repr

/-- The history of a run. -/
abbrev Trace := List Event

/-- The outside world.  Every answer is a function of the history of the run at the
moment of the call, so the world may answer the same call differently each time. -/
structure World where
  /-- The error of `ethclient.Dial`, if any. -/
  dial : Trace → String → Option String
  /-- The selection `survey.AskOne` leaves in the result slice (empty when it fails). -/
  askOne : Trace → String → List String → List String
  /-- The text `reader.ReadString` returns (its error is ignored by the program). -/
  readString : Trace → String
  /-- The answer of `client.PendingNonceAt`. -/
  pendingNonceAt : Trace → Address → Except String Nat
  /-- The answer of `os.ReadFile`. -/
  readFile : Trace → String → Except String (List Nat)
  /-- The answer of `client.NetworkID`. -/
  networkID : Trace → Except String Int
  /-- The error of `client.SendTransaction`, if any. -/
  sendTransaction : Trace → Transaction → Option String
  /-- The answer of `client.CodeAt`. -/
  codeAt : Trace → Address → Except String (List Nat)
  /-- The pair `(receipt, err)` of `client.TransactionReceipt`; `none` is Go's `nil`. -/
  transactionReceipt : Trace → Hash → Option Receipt × Option String
  /-- The answer of `instance.Set`. -/
  setCall : Trace → Instance → TransactOpts → Int → Except String Transaction
  /-- The answer of `instance.Get`. -/
  getCall : Trace → Instance → Except String Int

/-- The pure library functions the program calls and does not implement. -/
structure Lib where
  /-- The function `crypto.HexToECDSA`. -/
  hexToECDSA : String → Except String PrivateKey
  /-- The address of a key: `crypto.PubkeyToAddress` of `privateKey.Public()`. -/
  pubkeyToAddress : PrivateKey → Address
  /-- The function `crypto.CreateAddress`. -/
  createAddress : Address → Nat → Address
  /-- The signature values `(v, r, s)` that `types.SignTx` computes for a transaction
  with `types.NewEIP155Signer chainID` and a key, or its error. -/
  sign : Transaction → Int → PrivateKey → Except String (Nat × Nat × Nat)
  /-- The method `tx.Hash()`. -/
  txHash : Transaction → Hash
  /-- The method `Hash.Hex()`. -/
  hashHex : Hash → String
  /-- The method `Address.Hex()`. -/
  addressHex : Address → String
  /-- The function `simpleStorage.NewSimpleStorage`. -/
  newSimpleStorage : Address → Except String Instance
  /-- The function `bind.NewKeyedTransactorWithChainID`. -/
  newKeyedTransactorWithChainID : PrivateKey → Int → Except String TransactOpts
  /-- The text `fmt.Println` prints for a binding instance. -/
  fmtInstance : Instance → String

/-- The result of a run started from some history. -/
inductive Res (α : Type) where
  /-- The function returned `a`. -/
  | ok (a : α) (t : Trace)
  /-- The process exited with status `code`. -/
  | exit (code : Nat) (t : Trace)
  /-- A runtime panic (index out of range) ended the process. -/
  | panic (t : Trace)
  /-- The run is still going: the recursion budget of the menu loop is used up. -/
  | running (t : Trace)
  deriving DecidableEq, Repr

/-- The history at the end of a run. -/
def Res.trace {α : Type} : Res α → Trace
  | .ok _ t => t
  | .exit _ t => t
  | .panic t => t
  | .running t => t

/-- A run: from the history so far to a result. -/
def Run (α : Type) : Type := Trace → Res α

/-- Sequencing of runs: the second runs only if the first returned. -/
def Run.bind {α β : Type} (m : Run α) (f : α → Run β) : Run β := fun t =>
  match m t with
  | .ok a t1 => f a t1
  | .exit c t1 => .exit c t1
  | .panic t1 => .panic t1
  | .running t1 => .running t1

instance : Monad Run where
  pure a := fun t => .ok a t
  bind := Run.bind

/-- Record one event. -/
def emit (e : Event) : Run Unit := fun t => .ok () (t ++ [e])

/-- The function `fmt.Print`, and `fmt.Printf` once the text is formatted. -/
def fmtPrint (s : String) : Run Unit := emit (.print s)

/-- The function `fmt.Println` of one string. -/
def fmtPrintln (s : String) : Run Unit := emit (.print (s ++ "\n"))

/-- The function `os.Exit`. -/
def osExit {α : Type} (code : Nat) : Run α := fun t => .exit code t

/-- The functions `log.Fatalf` and `log.Fatalln` once the text is formatted: the text goes
to the logger and the process exits with status 1. -/
def logFatal {α : Type} (msg : String) : Run α := fun t => .exit 1 (t ++ [.log msg])

/-- The idiom `if err != nil { log.Fatalf(msg + "%v", err) }` on a call's result. -/
def orFatal {α : Type} (msg : String) : Except String α → Run α
  | .error e => logFatal (msg ++ e)
  | .ok a => pure a

/-- The same idiom for a call that returns only an error. -/
def errFatal (msg : String) : Option String → Run Unit
  | some e => logFatal (msg ++ e)
  | none => pure ()

/-! ## Library functions on text: `strings.TrimSpace`, `encoding/hex`, `common` -/

/-- The function `unicode.IsSpace`: the white space characters of Unicode. -/
def isSpace (c : Char) : Bool :=
  let n := c.toNat
  (9 ≤ n && n ≤ 13) || n == 32 || n == 0x85 || n == 0xA0 || n == 0x1680 ||
    (0x2000 ≤ n && n ≤ 0x200A) || n == 0x2028 || n == 0x2029 || n == 0x202F ||
    n == 0x205F || n == 0x3000

/-- The function `strings.TrimSpace`: the text without its leading and trailing white
space. -/
def TrimSpace (s : String) : String :=
  String.mk ((s.data.dropWhile isSpace).reverse.dropWhile isSpace).reverse

/-- The bytes of a Go string: its UTF-8 encoding. -/
def goBytes (s : String) : List Nat :=
  (s.data.flatMap String.utf8EncodeChar).map UInt8.toNat

/-- The function `isHexCharacter` of package `common`, on a byte. -/
def isHexCharacter (c : Nat) : Bool :=
  (48 ≤ c && c ≤ 57) || (97 ≤ c && c ≤ 102) || (65 ≤ c && c ≤ 70)

/-- The function `isHex` of package `common`: an even number of bytes, all hex digits. -/
def isHex (str : List Nat) : Bool :=
  if str.length % 2 != 0 then false else str.all isHexCharacter

/-- The function `has0xPrefix` of package `common`: the text starts with `0x` or `0X`. -/
def has0x (str : List Nat) : Bool :=
  match str with
  | c0 :: c1 :: _ => c0 == 48 && (c1 == 120 || c1 == 88)
  | _ => false

/-- The value of one hex digit (`fromHexChar` of `encoding/hex`), if it is one. -/
def fromHexChar (c : Nat) : Option Nat :=
  if 48 ≤ c ∧ c ≤ 57 then some (c - 48)
  else if 97 ≤ c ∧ c ≤ 102 then some (c - 97 + 10)
  else if 65 ≤ c ∧ c ≤ 70 then some (c - 65 + 10)
  else none

/-- The function `Hex2Bytes` of package `common`: `hex.DecodeString` with its error
dropped, which leaves the bytes decoded before the first byte that is not a hex digit. -/
def Hex2Bytes : List Nat → List Nat
  | p :: q :: rest =>
    match fromHexChar p, fromHexChar q with
    | some a, some b => (a * 16 + b) :: Hex2Bytes rest
    | _, _ => []
  | _ => []

/-- The function `FromHex` of package `common`. -/
def FromHex (s : List Nat) : List Nat :=
  let s := if has0x s then s.drop 2 else s
  let s := if s.length % 2 == 1 then 48 :: s else s
  Hex2Bytes s

/-- The method `SetBytes` of a byte array of length `n`: a longer input is cropped from
the left, a shorter one is padded with zeros on the left. -/
def setBytes (n : Nat) (b : List Nat) : List Nat :=
  let b := if b.length > n then b.drop (b.length - n) else b
  List.replicate (n - b.length) 0 ++ b

/-- The length of a `common.Address`. -/
def AddressLength : Nat := 20

/-- The length of a `common.Hash`. -/
def HashLength : Nat := 32

/-- The function `common.IsHexAddress`. -/
def IsHexAddress (s : String) : Bool :=
  let b := goBytes s
  let b := if has0x b then b.drop 2 else b
  b.length == 2 * AddressLength && isHex b

/-- The function `common.HexToAddress`. -/
def HexToAddress (s : String) : Address :=
  ⟨setBytes AddressLength (FromHex (goBytes s))⟩

/-- The function `common.HexToHash`. -/
def HexToHash (s : String) : Hash :=
  ⟨setBytes HashLength (FromHex (goBytes s))⟩

/-- The constructor `types.NewContractCreation`: an unsigned transaction with no
recipient. -/
def NewContractCreation (nonce : Nat) (amount : Int) (gasLimit : Nat)
    (gasPrice : Option Int) (data : List Nat) : Transaction :=
  { nonce := nonce, recipient := none, value := amount, gasLimit := gasLimit,
    gasPrice := gasPrice, data := data, v := 0, r := 0, s := 0 }

/-- The Go conversion `int64(value)` of a `uint` (64 bits wide). -/
def int64OfUint (value : Nat) : Int :=
  let u : Nat := value % 2 ^ 64
  if u < 2 ^ 63 then (u : Int) else (u : Int) - 2 ^ 64

/-! ## Calls into the outside world and the libraries

Each call appends its event to the history and returns the answer the world (or the
library) gives at that moment. -/

/-- The call `ethclient.Dial(url)`; the answer is its error. -/
def dial (w : World) (url : String) : Run (Option String) := fun t =>
  .ok (w.dial t url) (t ++ [.dial url])

/-- The call `crypto.HexToECDSA(hex)`. -/
def hexToECDSA (lib : Lib) (hex : String) : Run (Except String PrivateKey) := fun t =>
  .ok (lib.hexToECDSA hex) (t ++ [.hexToECDSA hex])

/-- The call `client.PendingNonceAt(ctx, a)`. -/
def pendingNonceAt (w : World) (a : Address) : Run (Except String Nat) := fun t =>
  .ok (w.pendingNonceAt t a) (t ++ [.pendingNonceAt a])

/-- The call `os.ReadFile(name)`. -/
def readFile (w : World) (name : String) : Run (Except String (List Nat)) := fun t =>
  .ok (w.readFile t name) (t ++ [.readFile name])

/-- The call `client.NetworkID(ctx)`. -/
def networkID (w : World) : Run (Except String Int) := fun t =>
  .ok (w.networkID t) (t ++ [.networkID])

/-- The function `types.SignTx` with `types.NewEIP155Signer chainID`: a copy of the
transaction that carries the signature values, or the error of signing. -/
def SignTx (lib : Lib) (tx : Transaction) (chainID : Int) (key : PrivateKey) :
    Except String Transaction :=
  match lib.sign tx chainID key with
  | .error e => .error e
  | .ok (v, r, s) => .ok { tx with v := v, r := r, s := s }

/-- The call `types.SignTx(tx, types.NewEIP155Signer(chainID), key)`. -/
def signTx (lib : Lib) (tx : Transaction) (chainID : Int) (key : PrivateKey) :
    Run (Except String Transaction) := fun t =>
  .ok (SignTx lib tx chainID key) (t ++ [.signTx tx chainID key])

/-- The call `client.SendTransaction(ctx, tx)`; the answer is its error. -/
def sendTransaction (w : World) (tx : Transaction) : Run (Option String) := fun t =>
  .ok (w.sendTransaction t tx) (t ++ [.sendTransaction tx])

/-- The call `client.CodeAt(ctx, a, nil)`. -/
def codeAt (w : World) (a : Address) : Run (Except String (List Nat)) := fun t =>
  .ok (w.codeAt t a) (t ++ [.codeAt a])

/-- The call `client.TransactionReceipt(ctx, h)`; the answer is the pair
`(receipt, err)`. -/
def transactionReceipt (w : World) (h : Hash) :
    Run (Option Receipt × Option String) := fun t =>
  .ok (w.transactionReceipt t h) (t ++ [.transactionReceipt h])

/-- The call `simpleStorage.NewSimpleStorage(a, client)`. -/
def newSimpleStorage (lib : Lib) (a : Address) : Run (Except String Instance) := fun t =>
  .ok (lib.newSimpleStorage a) (t ++ [.newSimpleStorage a])

/-- The call `bind.NewKeyedTransactorWithChainID(key, chainID)`. -/
def newKeyedTransactorWithChainID (lib : Lib) (key : PrivateKey) (chainID : Int) :
    Run (Except String TransactOpts) := fun t =>
  .ok (lib.newKeyedTransactorWithChainID key chainID) (t ++ [.newKeyedTransactor key chainID])

/-- The call `instance.Set(auth, value)`. -/
def instanceSet (w : World) (inst : Instance) (auth : TransactOpts) (value : Int) :
    Run (Except String Transaction) := fun t =>
  .ok (w.setCall t inst auth value) (t ++ [.setCall inst auth value])

/-- The call `instance.Get(callOpts)`. -/
def instanceGet (w : World) (inst : Instance) : Run (Except String Int) := fun t =>
  .ok (w.getCall t inst) (t ++ [.getCall inst])

/-- The call `reader.ReadString` on standard input; its error is dropped. -/
def readString (w : World) : Run String := fun t =>
  .ok (w.readString t) (t ++ [.readLine (w.readString t)])

/-- The indexing `answers[0]`: a runtime panic on an empty slice. -/
def index0 (answers : List String) : Run String := fun t =>
  match answers with
  | [] => .panic t
  | a :: _ => .ok a t

/-! ## The program -/

/-- The function `deployContract` of `main.go`. -/
def deployContract (w : World) (lib : Lib) (privateKey : PrivateKey) : Run Address := do
  let fromAddress := lib.pubkeyToAddress privateKey
  let nonce ← orFatal "Failed to get nonce: " (← pendingNonceAt w fromAddress)
  let contractBin ← orFatal "Failed to read contract bytecode: "
    (← readFile w "SimpleStorage.bin")
  let gasLimit := 3500000
  let tx := NewContractCreation nonce 0 gasLimit none contractBin
  let chainID ← orFatal "Failed to get network ID: " (← networkID w)
  let signedTx ← orFatal "Failed to sign transaction: " (← signTx lib tx chainID privateKey)
  errFatal "Failed to send transaction: " (← sendTransaction w signedTx)
  let contractAddress := lib.createAddress fromAddress nonce
  fmtPrintln "Contract deployed !! "
  fmtPrint ("Transaction hash: " ++ lib.hashHex (lib.txHash signedTx) ++ "\n")
  fmtPrint ("Contract address: " ++ lib.addressHex contractAddress ++ "\n")
  let code ← orFatal "Failed to get contract code: " (← codeAt w contractAddress)
  if code.length = 0 then
    logFatal "No contract code found at the address"
  return contractAddress

/-- The function `checkTransaction` of `main.go`. -/
def checkTransaction (w : World) (txHash : Hash) : Run Unit := do
  let (receipt, err) ← transactionReceipt w txHash
  errFatal "Failed to get transaction receipt: " err
  match receipt with
  | none => logFatal "Transaction is still pending"
  | some receipt =>
    if receipt.status ≠ 1 then
      fmtPrint ("Gas used: " ++ toString receipt.gasUsed ++ "\n")
      logFatal ("Transaction failed - status:  " ++ toString receipt.status ++ "\n")
    else if receipt.status = 1 then
      fmtPrintln "Transaction succeeded"

/-- The function `set` of `main.go`. -/
def set (w : World) (lib : Lib) (privateKey : PrivateKey) (contractAddress : Address)
    (value : Nat) : Run Unit := do
  let inst ← orFatal "Failed to load contract instance: "
    (← newSimpleStorage lib contractAddress)
  fmtPrintln ("Contract instance is loaded:  " ++ lib.fmtInstance inst)
  let auth ← orFatal "Failed to create authorized transactor: "
    (← newKeyedTransactorWithChainID lib privateKey 1337)
  let tx ← orFatal "Failed to call contract method: "
    (← instanceSet w inst auth (int64OfUint value))
  fmtPrint ("Transaction sent: " ++ lib.hashHex (lib.txHash tx) ++ "\n")

/-- The function `get` of `main.go`. -/
def get (w : World) (lib : Lib) (contractAddress : Address) : Run Unit := do
  let inst ← orFatal "Failed to load contract instance: "
    (← newSimpleStorage lib contractAddress)
  fmtPrintln ("Contract instance is loaded:  " ++ lib.fmtInstance inst)
  let value ← orFatal "Failed to retrieve stored value: " (← instanceGet w inst)
  fmtPrint ("Stored value is: " ++ toString value ++ "\n")

/-- The function `getContractAddressFromUser` of `main.go`. -/
def getContractAddressFromUser (w : World) : Run Address := do
  fmtPrint "Please enter the contract address: "
  let addressInput ← readString w
  let addressInput := TrimSpace addressInput
  if !IsHexAddress addressInput then
    logFatal "Invalid contract address"
  return HexToAddress addressInput

/-- The function `getTransactionHashFromUser` of `main.go`. -/
def getTransactionHashFromUser (w : World) : Run Hash := do
  fmtPrint "Please enter the transaction hash: "
  let hashInput ← readString w
  let hashInput := TrimSpace hashInput
  return HexToHash hashInput

/-- The function `Checkboxes` of `main.go`: the selection `survey.AskOne` leaves in
`res`, which starts empty. -/
def Checkboxes (w : World) (label : String) (opts : List String) : Run (List String) :=
  fun t => .ok (w.askOne t label opts) (t ++ [.ask label opts (w.askOne t label opts)])

/-- The options of the menu, in the order `prompt` offers them. -/
def menuOptions : List String :=
  ["Deploy the contract ", "Check the transaction ", "Use the SET function ",
    "Use the GET function ", "Exit"]

/-- The text of the welcome line as `fmt.Println` writes it. -/
def welcome : Event := .print "Welcome on Contract CLI\n \n"

/-- The label of the menu. -/
def menuLabel : String := "What do you want to do ? (check one) "

/-- A Go `if` statement without `else`: the body runs when the condition holds, and
control goes on to the next statement when the body returns or is skipped. -/
def goIf (c : Prop) [Decidable c] (body : Run Unit) : Run Unit :=
  if c then body else pure ()

/-- The function `prompt` of `main.go`.  It calls itself to show the menu again; the
last argument bounds the depth of these calls, and a run that reaches the bound is
reported as `Res.running`.  As in the source, no branch returns after its recursive
call: when that call returns, control falls through to the comparisons below it. -/
def prompt (w : World) (lib : Lib) (privateKey : PrivateKey) : Nat → Run Unit
  | 0 => fun t => .running t
  | fuel + 1 => do
    fmtPrintln "Welcome on Contract CLI\n "
    let answers ← Checkboxes w "What do you want to do ? (check one) " menuOptions
    goIf (answers.length ≠ 1) do
      fmtPrintln "Please select only one option"
      prompt w lib privateKey fuel
    goIf ((← index0 answers) = "Deploy the contract ") do
      fmtPrintln "Processing ...\n "
      let _ ← deployContract w lib privateKey
      fmtPrintln "Done !\n "
      prompt w lib privateKey fuel
    goIf ((← index0 answers) = "Check the transaction ") do
      fmtPrintln "Processing ...\n "
      let txHash ← getTransactionHashFromUser w
      checkTransaction w txHash
      fmtPrintln "Done !\n "
      prompt w lib privateKey fuel
    goIf ((← index0 answers) = "Use the SET function ") do
      fmtPrintln "Processing ...\n "
      let contractAddress ← getContractAddressFromUser w
      set w lib privateKey contractAddress 42
      fmtPrintln "Done !\n "
      prompt w lib privateKey fuel
    goIf ((← index0 answers) = "Use the GET function ") do
      fmtPrintln "Processing ...\n "
      let contractAddress ← getContractAddressFromUser w
      get w lib contractAddress
      fmtPrintln "Done !\n "
      prompt w lib privateKey fuel
    goIf ((← index0 answers) = "Exit") do
      fmtPrintln "Bye Bye\n "
      osExit 0

/-- The function `main` of `main.go`; the argument bounds the depth of the menu loop. -/
def main (w : World) (lib : Lib) (fuel : Nat) : Run Unit := do
  let networkUrl := "http://localhost:8545"
  let hexPrivateKey := "8f2a55949038a9610f50fb23b5883af3b4ecb3c3bb792cbcefbd1542c692be63"
  errFatal "Failed to connect to the Ethereum client: " (← dial w networkUrl)
  let privateKey ← orFatal "Failed to load private key: " (← hexToECDSA lib hexPrivateKey)
  prompt w lib privateKey fuel

/-! ## Properties of runs -/

/-- An action either returns or ends the process by a fatal log with status 1. -/
def Res.OkOrFatal {α : Type} : Res α → Prop
  | .ok _ _ => True
  | .exit c t => c = 1 ∧ ∃ msg, t.getLast? = some (Event.log msg)
  | .panic _ => False
  | .running _ => False

/-- The menu loop never returns and never panics: it is still going, or the process
exited with status 0 right after a single selection of `Exit`, or a fatal log ended the
process with status 1. -/
def Res.Fair : Res Unit → Prop
  | .ok _ _ => False
  | .exit c t =>
    (c = 0 ∧ [Event.ask menuLabel menuOptions ["Exit"], Event.print "Bye Bye\n \n"] <:+ t) ∨
      (c = 1 ∧ ∃ msg, t.getLast? = some (Event.log msg))
  | .panic _ => False
  | .running _ => True

/-- The operator can select only what the menu offers: every entry of an answer of
`survey.AskOne` is one of the options it was given. -/
def OffersOnly (w : World) : Prop :=
  ∀ (t : Trace) (label : String) (opts : List String) (a : String),
    a ∈ w.askOne t label opts → a ∈ opts

/-- A run extends the history it starts from. -/
def Run.Extends {α : Type} (m : Run α) : Prop := ∀ t, t <+: (m t).trace

/-! ## Notions used to state the properties -/

/-- The number a text of hex digits denotes, most significant digit first. -/
def hexValue (digits : List Nat) : Nat :=
  digits.foldl (fun acc c => 16 * acc + (fromHexChar c).getD 0) 0

/-- The number a sequence of bytes denotes, most significant byte first. -/
def bytesValue (bytes : List Nat) : Nat :=
  bytes.foldl (fun acc b => 256 * acc + b) 0

/-- The hex digits of a text: its bytes without a leading `0x` or `0X`. -/
def hexDigitsOf (s : String) : List Nat :=
  if has0x (goBytes s) then (goBytes s).drop 2 else goBytes s

/-- The selection the operator makes when the menu is shown after the history `t`. -/
def menuAnswer (w : World) (t : Trace) : List String :=
  w.askOne (t ++ [welcome]) menuLabel menuOptions

/-- The history once the menu was shown after `t` and answered. -/
def afterMenu (w : World) (t : Trace) : Trace :=
  t ++ [welcome, .ask menuLabel menuOptions (menuAnswer w t)]

/-- The event is a call of `types.SignTx`. -/
def Event.isSign : Event → Bool
  | .signTx _ _ _ => true
  | _ => false

/-- The event is a call of `client.SendTransaction`. -/
def Event.isSend : Event → Bool
  | .sendTransaction _ => true
  | _ => false

/-- The event is a call of `instance.Set`. -/
def Event.isSetCall : Event → Bool
  | .setCall _ _ _ => true
  | _ => false

/-- The event changes the ledger or prepares a change: signing, submission, or a call
of the contract's `set`. -/
def Event.isWrite : Event → Bool
  | .signTx _ _ _ => true
  | .sendTransaction _ => true
  | .setCall _ _ _ => true
  | .newKeyedTransactor _ _ => true
  | _ => false

/-- The event is the showing of the menu. -/
def Event.isAsk : Event → Bool
  | .ask _ _ _ => true
  | _ => false

/-- The event is the reading of a line. -/
def Event.isReadLine : Event → Bool
  | .readLine _ => true
  | _ => false

/-! ## Worlds and libraries for examples -/

/-- A library for examples: every function succeeds. -/
def lib0 : Lib where
  hexToECDSA := fun _ => .ok ⟨1⟩
  pubkeyToAddress := fun key => ⟨List.replicate 20 key.d⟩
  createAddress := fun a n => ⟨a.bytes.map (· + n)⟩
  sign := fun _ chainID _ => .ok (chainID.toNat * 2 + 35, 1, 1)
  txHash := fun tx => ⟨List.replicate 32 tx.nonce⟩
  hashHex := fun h => "0x" ++ toString h.bytes.length
  addressHex := fun a => "0x" ++ toString a.bytes.length
  newSimpleStorage := fun a => .ok ⟨a⟩
  newKeyedTransactorWithChainID := fun key chainID => .ok ⟨key, chainID⟩
  fmtInstance := fun _ => "&binding"

/-- A library for examples in which the binding cannot be created. -/
def libNoBinding : Lib :=
  { lib0 with newSimpleStorage := fun _ => .error "no ABI" }

/-- A library for examples in which the transactor cannot be built. -/
def libNoTransactor : Lib :=
  { lib0 with newKeyedTransactorWithChainID := fun _ _ => .error "no chain ID specified" }

/-- The key of the examples. -/
def key0 : PrivateKey := ⟨1⟩

/-- A world for examples.  The operator answers the menus with `menu`, one entry per
menu and `Exit` afterwards, always within the options offered, and types `lines`, one
per prompt; the node answers every call with success. -/
def scripted (menu : List (List String)) (lines : List String) : World where
  dial := fun _ _ => none
  askOne := fun t _ opts => ((menu.getD (t.countP Event.isAsk) ["Exit"]).filter (· ∈ opts))
  readString := fun t => lines.getD (t.countP Event.isReadLine) ""
  pendingNonceAt := fun _ _ => .ok 7
  readFile := fun _ _ => .ok [96, 128]
  networkID := fun _ => .ok 5
  sendTransaction := fun _ _ => none
  codeAt := fun _ _ => .ok [96]
  transactionReceipt := fun _ _ => (some ⟨1, 21000⟩, none)
  setCall := fun _ _ _ v => .ok (NewContractCreation v.toNat 0 0 none [])
  getCall := fun _ _ => .ok 42

/-! ## Runs, step by step

The lemmas of this section unfold each function of the program into the sequence of
answers it asks of the world, with the history at each step written out. -/

@[simp] theorem pure_apply {α : Type} (a : α) (t : Trace) : (pure a : Run α) t = .ok a t := rfl

@[simp] theorem bind_apply {α β : Type} (m : Run α) (f : α → Run β) (t : Trace) :
    (m >>= f) t = Run.bind m f t := rfl

/-- The run of `deployContract`, step by step: each answer of the world decides
whether the run goes on. -/
theorem deployContract_eq (w : World) (lib : Lib) (key : PrivateKey) (t : Trace) :
    deployContract w lib key t =
      match w.pendingNonceAt t (lib.pubkeyToAddress key) with
      | .error e => .exit 1 (t ++ [.pendingNonceAt (lib.pubkeyToAddress key),
          .log ("Failed to get nonce: " ++ e)])
      | .ok n =>
      match w.readFile (t ++ [.pendingNonceAt (lib.pubkeyToAddress key)])
          "SimpleStorage.bin" with
      | .error e => .exit 1 (t ++ [.pendingNonceAt (lib.pubkeyToAddress key),
          .readFile "SimpleStorage.bin", .log ("Failed to read contract bytecode: " ++ e)])
      | .ok bin =>
      match w.networkID (t ++ [.pendingNonceAt (lib.pubkeyToAddress key),
          .readFile "SimpleStorage.bin"]) with
      | .error e => .exit 1 (t ++ [.pendingNonceAt (lib.pubkeyToAddress key),
          .readFile "SimpleStorage.bin", .networkID,
          .log ("Failed to get network ID: " ++ e)])
      | .ok chainID =>
      match SignTx lib (NewContractCreation n 0 3500000 none bin) chainID key with
      | .error e => .exit 1 (t ++ [.pendingNonceAt (lib.pubkeyToAddress key),
          .readFile "SimpleStorage.bin", .networkID,
          .signTx (NewContractCreation n 0 3500000 none bin) chainID key,
          .log ("Failed to sign transaction: " ++ e)])
      | .ok signedTx =>
      match w.sendTransaction (t ++ [.pendingNonceAt (lib.pubkeyToAddress key),
          .readFile "SimpleStorage.bin", .networkID,
          .signTx (NewContractCreation n 0 3500000 none bin) chainID key]) signedTx with
      | some e => .exit 1 (t ++ [.pendingNonceAt (lib.pubkeyToAddress key),
          .readFile "SimpleStorage.bin", .networkID,
          .signTx (NewContractCreation n 0 3500000 none bin) chainID key,
          .sendTransaction signedTx, .log ("Failed to send transaction: " ++ e)])
      | none =>
      match w.codeAt (t ++ [.pendingNonceAt (lib.pubkeyToAddress key),
          .readFile "SimpleStorage.bin", .networkID,
          .signTx (NewContractCreation n 0 3500000 none bin) chainID key,
          .sendTransaction signedTx, .print "Contract deployed !! \n",
          .print ("Transaction hash: " ++ lib.hashHex (lib.txHash signedTx) ++ "\n"),
          .print ("Contract address: " ++
            lib.addressHex (lib.createAddress (lib.pubkeyToAddress key) n) ++ "\n")])
          (lib.createAddress (lib.pubkeyToAddress key) n) with
      | .error e => .exit 1 (t ++ [.pendingNonceAt (lib.pubkeyToAddress key),
          .readFile "SimpleStorage.bin", .networkID,
          .signTx (NewContractCreation n 0 3500000 none bin) chainID key,
          .sendTransaction signedTx, .print "Contract deployed !! \n",
          .print ("Transaction hash: " ++ lib.hashHex (lib.txHash signedTx) ++ "\n"),
          .print ("Contract address: " ++
            lib.addressHex (lib.createAddress (lib.pubkeyToAddress key) n) ++ "\n"),
          .codeAt (lib.createAddress (lib.pubkeyToAddress key) n),
          .log ("Failed to get contract code: " ++ e)])
      | .ok code =>
        if code.length = 0 then
          .exit 1 (t ++ [.pendingNonceAt (lib.pubkeyToAddress key),
            .readFile "SimpleStorage.bin", .networkID,
            .signTx (NewContractCreation n 0 3500000 none bin) chainID key,
            .sendTransaction signedTx, .print "Contract deployed !! \n",
            .print ("Transaction hash: " ++ lib.hashHex (lib.txHash signedTx) ++ "\n"),
            .print ("Contract address: " ++
              lib.addressHex (lib.createAddress (lib.pubkeyToAddress key) n) ++ "\n"),
            .codeAt (lib.createAddress (lib.pubkeyToAddress key) n),
            .log "No contract code found at the address"])
        else
          .ok (lib.createAddress (lib.pubkeyToAddress key) n)
            (t ++ [.pendingNonceAt (lib.pubkeyToAddress key),
            .readFile "SimpleStorage.bin", .networkID,
            .signTx (NewContractCreation n 0 3500000 none bin) chainID key,
            .sendTransaction signedTx, .print "Contract deployed !! \n",
            .print ("Transaction hash: " ++ lib.hashHex (lib.txHash signedTx) ++ "\n"),
            .print ("Contract address: " ++
              lib.addressHex (lib.createAddress (lib.pubkeyToAddress key) n) ++ "\n"),
            .codeAt (lib.createAddress (lib.pubkeyToAddress key) n)]) := by
  unfold deployContract
  simp only [bind_apply, Run.bind, pendingNonceAt, readFile, networkID, signTx, sendTransaction,
    codeAt, fmtPrint, fmtPrintln, emit, pure_apply, List.append_assoc, List.singleton_append,
    List.cons_append, List.nil_append]
  cases w.pendingNonceAt t (lib.pubkeyToAddress key) with
  | error e => simp [orFatal, logFatal]
  | ok n =>
    simp only [orFatal, pure_apply, List.append_assoc, List.singleton_append, List.cons_append, List.nil_append]
    cases w.readFile (t ++ [Event.pendingNonceAt (lib.pubkeyToAddress key)])
        "SimpleStorage.bin" with
    | error e => simp [logFatal]
    | ok bin =>
      simp only [pure_apply, List.append_assoc, List.singleton_append, List.cons_append, List.nil_append]
      cases w.networkID (t ++ [Event.pendingNonceAt (lib.pubkeyToAddress key),
          Event.readFile "SimpleStorage.bin"]) with
      | error e => simp [logFatal]
      | ok chainID =>
        simp only [pure_apply, List.append_assoc, List.singleton_append, List.cons_append, List.nil_append]
        cases SignTx lib (NewContractCreation n 0 3500000 none bin) chainID key with
        | error e => simp [logFatal]
        | ok signedTx =>
          simp only [pure_apply, List.append_assoc, List.singleton_append, List.cons_append, List.nil_append]
          cases w.sendTransaction (t ++ [Event.pendingNonceAt (lib.pubkeyToAddress key),
              Event.readFile "SimpleStorage.bin", Event.networkID,
              Event.signTx (NewContractCreation n 0 3500000 none bin) chainID key])
              signedTx with
          | some e => simp [errFatal, logFatal]
          | none =>
            simp only [errFatal, pure_apply, List.append_assoc, List.singleton_append,
              List.cons_append, List.nil_append, String.reduceAppend]
            cases w.codeAt (t ++ [Event.pendingNonceAt (lib.pubkeyToAddress key),
                Event.readFile "SimpleStorage.bin", Event.networkID,
                Event.signTx (NewContractCreation n 0 3500000 none bin) chainID key,
                Event.sendTransaction signedTx, Event.print "Contract deployed !! \n",
                Event.print ("Transaction hash: " ++ lib.hashHex (lib.txHash signedTx) ++ "\n"),
                Event.print ("Contract address: " ++
                  lib.addressHex (lib.createAddress (lib.pubkeyToAddress key) n) ++ "\n")])
                (lib.createAddress (lib.pubkeyToAddress key) n) with
            | error e => simp [logFatal]
            | ok code =>
              by_cases hc : code.length = 0 <;> simp [hc, logFatal, Run.bind]

/-- The run of `checkTransaction`, by the answer of the node. -/
theorem checkTransaction_eq (w : World) (txHash : Hash) (t : Trace) :
    checkTransaction w txHash t =
      match w.transactionReceipt t txHash with
      | (_, some e) => .exit 1 (t ++ [.transactionReceipt txHash,
          .log ("Failed to get transaction receipt: " ++ e)])
      | (none, none) => .exit 1 (t ++ [.transactionReceipt txHash,
          .log "Transaction is still pending"])
      | (some receipt, none) =>
        if receipt.status ≠ 1 then
          .exit 1 (t ++ [.transactionReceipt txHash,
            .print ("Gas used: " ++ toString receipt.gasUsed ++ "\n"),
            .log ("Transaction failed - status:  " ++ toString receipt.status ++ "\n")])
        else
          .ok () (t ++ [.transactionReceipt txHash, .print "Transaction succeeded\n"]) := by
  unfold checkTransaction
  simp only [bind_apply, Run.bind, transactionReceipt]
  rcases w.transactionReceipt t txHash with ⟨receipt, err⟩
  cases err with
  | some e => simp [errFatal, logFatal]
  | none =>
    cases receipt with
    | none => simp [errFatal, logFatal]
    | some receipt =>
      by_cases hs : receipt.status = 1 <;>
        simp [errFatal, logFatal, hs, fmtPrint, fmtPrintln, emit, Run.bind]

/-- The run of `set`, step by step. -/
theorem set_eq (w : World) (lib : Lib) (key : PrivateKey) (a : Address) (value : Nat)
    (t : Trace) :
    set w lib key a value t =
      match lib.newSimpleStorage a with
      | .error e => .exit 1 (t ++ [.newSimpleStorage a,
          .log ("Failed to load contract instance: " ++ e)])
      | .ok inst =>
      match lib.newKeyedTransactorWithChainID key 1337 with
      | .error e => .exit 1 (t ++ [.newSimpleStorage a,
          .print ("Contract instance is loaded:  " ++ lib.fmtInstance inst ++ "\n"),
          .newKeyedTransactor key 1337,
          .log ("Failed to create authorized transactor: " ++ e)])
      | .ok auth =>
      match w.setCall (t ++ [.newSimpleStorage a,
          .print ("Contract instance is loaded:  " ++ lib.fmtInstance inst ++ "\n"),
          .newKeyedTransactor key 1337]) inst auth (int64OfUint value) with
      | .error e => .exit 1 (t ++ [.newSimpleStorage a,
          .print ("Contract instance is loaded:  " ++ lib.fmtInstance inst ++ "\n"),
          .newKeyedTransactor key 1337, .setCall inst auth (int64OfUint value),
          .log ("Failed to call contract method: " ++ e)])
      | .ok tx => .ok () (t ++ [.newSimpleStorage a,
          .print ("Contract instance is loaded:  " ++ lib.fmtInstance inst ++ "\n"),
          .newKeyedTransactor key 1337, .setCall inst auth (int64OfUint value),
          .print ("Transaction sent: " ++ lib.hashHex (lib.txHash tx) ++ "\n")]) := by
  unfold set
  simp only [bind_apply, Run.bind, newSimpleStorage, newKeyedTransactorWithChainID,
    instanceSet, fmtPrint, fmtPrintln, emit, pure_apply, List.append_assoc,
    List.singleton_append, List.cons_append, List.nil_append]
  cases lib.newSimpleStorage a with
  | error e => simp [orFatal, logFatal]
  | ok inst =>
    simp only [orFatal, pure_apply, List.append_assoc, List.singleton_append,
      List.cons_append, List.nil_append]
    cases lib.newKeyedTransactorWithChainID key 1337 with
    | error e => simp [logFatal]
    | ok auth =>
      simp only [pure_apply, List.append_assoc, List.singleton_append, List.cons_append,
        List.nil_append]
      cases w.setCall (t ++ [Event.newSimpleStorage a,
          Event.print ("Contract instance is loaded:  " ++ lib.fmtInstance inst ++ "\n"),
          Event.newKeyedTransactor key 1337]) inst auth (int64OfUint value) with
      | error e => simp [logFatal]
      | ok tx => simp

/-- The run of `get`, step by step. -/
theorem get_eq (w : World) (lib : Lib) (a : Address) (t : Trace) :
    get w lib a t =
      match lib.newSimpleStorage a with
      | .error e => .exit 1 (t ++ [.newSimpleStorage a,
          .log ("Failed to load contract instance: " ++ e)])
      | .ok inst =>
      match w.getCall (t ++ [.newSimpleStorage a,
          .print ("Contract instance is loaded:  " ++ lib.fmtInstance inst ++ "\n")]) inst with
      | .error e => .exit 1 (t ++ [.newSimpleStorage a,
          .print ("Contract instance is loaded:  " ++ lib.fmtInstance inst ++ "\n"),
          .getCall inst, .log ("Failed to retrieve stored value: " ++ e)])
      | .ok value => .ok () (t ++ [.newSimpleStorage a,
          .print ("Contract instance is loaded:  " ++ lib.fmtInstance inst ++ "\n"),
          .getCall inst, .print ("Stored value is: " ++ toString value ++ "\n")]) := by
  unfold get
  simp only [bind_apply, Run.bind, newSimpleStorage, instanceGet, fmtPrint, fmtPrintln, emit,
    pure_apply, List.append_assoc, List.singleton_append, List.cons_append, List.nil_append]
  cases lib.newSimpleStorage a with
  | error e => simp [orFatal, logFatal]
  | ok inst =>
    simp only [orFatal, pure_apply, List.append_assoc, List.singleton_append,
      List.cons_append, List.nil_append]
    cases w.getCall (t ++ [Event.newSimpleStorage a,
        Event.print ("Contract instance is loaded:  " ++ lib.fmtInstance inst ++ "\n")])
        inst with
    | error e => simp [logFatal]
    | ok value => simp

/-- The run of `getContractAddressFromUser`: the line read decides. -/
theorem getContractAddressFromUser_eq (w : World) (t : Trace) :
    getContractAddressFromUser w t =
      if IsHexAddress
          (TrimSpace (w.readString (t ++ [.print "Please enter the contract address: "])))
      then
        .ok (HexToAddress
            (TrimSpace (w.readString (t ++ [.print "Please enter the contract address: "]))))
          (t ++ [.print "Please enter the contract address: ",
            .readLine (w.readString (t ++ [.print "Please enter the contract address: "]))])
      else
        .exit 1 (t ++ [.print "Please enter the contract address: ",
          .readLine (w.readString (t ++ [.print "Please enter the contract address: "])),
          .log "Invalid contract address"]) := by
  unfold getContractAddressFromUser
  simp only [bind_apply, Run.bind, fmtPrint, emit, readString, pure_apply]
  cases IsHexAddress
    (TrimSpace (w.readString (t ++ [Event.print "Please enter the contract address: "]))) <;>
    simp [logFatal, Run.bind]

/-- The run of `getTransactionHashFromUser`: every line is converted and returned. -/
theorem getTransactionHashFromUser_eq (w : World) (t : Trace) :
    getTransactionHashFromUser w t =
      .ok (HexToHash
          (TrimSpace (w.readString (t ++ [.print "Please enter the transaction hash: "]))))
        (t ++ [.print "Please enter the transaction hash: ",
          .readLine (w.readString (t ++ [.print "Please enter the transaction hash: "]))]) := by
  simp [getTransactionHashFromUser, Run.bind, fmtPrint, emit, readString]

/-! ## Outcomes of the actions and of the menu loop -/

theorem deployContract_okOrFatal (w : World) (lib : Lib) (key : PrivateKey) (t : Trace) :
    (deployContract w lib key t).OkOrFatal := by
  rw [deployContract_eq]
  repeat' split
  all_goals simp [Res.OkOrFatal]

theorem checkTransaction_okOrFatal (w : World) (txHash : Hash) (t : Trace) :
    (checkTransaction w txHash t).OkOrFatal := by
  rw [checkTransaction_eq]
  repeat' split
  all_goals simp [Res.OkOrFatal]

theorem set_okOrFatal (w : World) (lib : Lib) (key : PrivateKey) (a : Address) (value : Nat)
    (t : Trace) : (set w lib key a value t).OkOrFatal := by
  rw [set_eq]
  repeat' split
  all_goals simp [Res.OkOrFatal]

theorem get_okOrFatal (w : World) (lib : Lib) (a : Address) (t : Trace) :
    (get w lib a t).OkOrFatal := by
  rw [get_eq]
  repeat' split
  all_goals simp [Res.OkOrFatal]

theorem getContractAddressFromUser_okOrFatal (w : World) (t : Trace) :
    (getContractAddressFromUser w t).OkOrFatal := by
  rw [getContractAddressFromUser_eq]
  repeat' split
  all_goals simp [Res.OkOrFatal]

/-! ## One turn of the menu -/

/-- A selection that is not a single option: the error line is printed and the loop
starts again; nothing else happens as long as the inner loop does not return. -/
theorem prompt_reask (w : World) (lib : Lib) (key : PrivateKey) (fuel : Nat) (t : Trace)
    (hlen : (w.askOne (t ++ [welcome]) menuLabel menuOptions).length ≠ 1)
    (hfair : (prompt w lib key fuel (t ++ [welcome,
      .ask menuLabel menuOptions (w.askOne (t ++ [welcome]) menuLabel menuOptions),
      .print "Please select only one option\n"])).Fair) :
    prompt w lib key (fuel + 1) t =
      prompt w lib key fuel (t ++ [welcome,
        .ask menuLabel menuOptions (w.askOne (t ++ [welcome]) menuLabel menuOptions),
        .print "Please select only one option\n"]) := by
  simp only [welcome, menuLabel] at hlen hfair ⊢
  simp only [prompt, goIf, bind_apply, Run.bind, fmtPrintln, emit, Checkboxes, pure_apply,
    List.append_assoc, List.singleton_append, List.cons_append, List.nil_append,
    String.reduceAppend, hlen, ne_eq, not_false_eq_true, if_true]
  generalize prompt w lib key fuel _ = r at hfair ⊢
  cases r <;> simp_all [Res.Fair]

/-- A single selection of `Exit`: the process exits with status 0 at once. -/
theorem prompt_exit (w : World) (lib : Lib) (key : PrivateKey) (fuel : Nat) (t : Trace)
    (h : w.askOne (t ++ [welcome]) menuLabel menuOptions = ["Exit"]) :
    prompt w lib key (fuel + 1) t =
      .exit 0 (t ++ [welcome, .ask menuLabel menuOptions ["Exit"],
        .print "Bye Bye\n \n"]) := by
  simp only [welcome, menuLabel] at h ⊢
  simp only [prompt, goIf, bind_apply, Run.bind, fmtPrintln, emit, Checkboxes, pure_apply,
    List.append_assoc, List.singleton_append, List.cons_append, List.nil_append,
    String.reduceAppend, h, List.length_singleton, ne_eq, not_true_eq_false, if_false,
    index0, if_true, String.reduceEq]
  simp [index0, osExit, Run.bind, emit]

/-- A single selection of `Deploy the contract `: `deployContract` runs, and when it
returns the loop starts again. -/
theorem prompt_deploy (w : World) (lib : Lib) (key : PrivateKey) (fuel : Nat) (t : Trace)
    (h : w.askOne (t ++ [welcome]) menuLabel menuOptions = ["Deploy the contract "]) :
    prompt w lib key (fuel + 1) t =
      (deployContract w lib key >>= fun _ =>
        fmtPrintln "Done !\n " >>= fun _ => prompt w lib key fuel)
        (t ++ [welcome, .ask menuLabel menuOptions ["Deploy the contract "],
          .print "Processing ...\n \n"]) := by
  simp only [welcome, menuLabel] at h ⊢
  simp only [prompt, goIf, bind_apply, Run.bind, fmtPrintln, emit, Checkboxes, pure_apply,
    List.append_assoc, List.singleton_append, List.cons_append, List.nil_append,
    String.reduceAppend, h, List.length_singleton, ne_eq, not_true_eq_false, if_false,
    index0, if_true, String.reduceEq]
  cases deployContract w lib key _ with
  | ok a t1 => simp only []; cases prompt w lib key fuel _ <;> simp
  | exit c t1 => simp
  | panic t1 => simp
  | running t1 => simp

/-- A single selection of `Check the transaction `: the hash is read and
`checkTransaction` runs, and when it returns the loop starts again. -/
theorem prompt_check (w : World) (lib : Lib) (key : PrivateKey) (fuel : Nat) (t : Trace)
    (h : w.askOne (t ++ [welcome]) menuLabel menuOptions = ["Check the transaction "]) :
    prompt w lib key (fuel + 1) t =
      (getTransactionHashFromUser w >>= fun txHash =>
        checkTransaction w txHash >>= fun _ =>
        fmtPrintln "Done !\n " >>= fun _ => prompt w lib key fuel)
        (t ++ [welcome, .ask menuLabel menuOptions ["Check the transaction "],
          .print "Processing ...\n \n"]) := by
  simp only [welcome, menuLabel] at h ⊢
  simp only [prompt, goIf, bind_apply, Run.bind, fmtPrintln, emit, Checkboxes, pure_apply,
    List.append_assoc, List.singleton_append, List.cons_append, List.nil_append,
    String.reduceAppend, h, List.length_singleton, ne_eq, not_true_eq_false, if_false,
    index0, if_true, String.reduceEq]
  cases getTransactionHashFromUser w _ with
  | ok a t1 =>
    simp only []
    cases checkTransaction w a t1 with
    | ok a t1 => simp only []; cases prompt w lib key fuel _ <;> simp
    | exit c t1 => simp
    | panic t1 => simp
    | running t1 => simp
  | exit c t1 => simp
  | panic t1 => simp
  | running t1 => simp

/-- A single selection of `Use the SET function `: the address is read and `set` runs
with the value 42, and when it returns the loop starts again. -/
theorem prompt_set (w : World) (lib : Lib) (key : PrivateKey) (fuel : Nat) (t : Trace)
    (h : w.askOne (t ++ [welcome]) menuLabel menuOptions = ["Use the SET function "]) :
    prompt w lib key (fuel + 1) t =
      (getContractAddressFromUser w >>= fun contractAddress =>
        set w lib key contractAddress 42 >>= fun _ =>
        fmtPrintln "Done !\n " >>= fun _ => prompt w lib key fuel)
        (t ++ [welcome, .ask menuLabel menuOptions ["Use the SET function "],
          .print "Processing ...\n \n"]) := by
  simp only [welcome, menuLabel] at h ⊢
  simp only [prompt, goIf, bind_apply, Run.bind, fmtPrintln, emit, Checkboxes, pure_apply,
    List.append_assoc, List.singleton_append, List.cons_append, List.nil_append,
    String.reduceAppend, h, List.length_singleton, ne_eq, not_true_eq_false, if_false,
    index0, if_true, String.reduceEq]
  cases getContractAddressFromUser w _ with
  | ok a t1 =>
    simp only []
    cases set w lib key a 42 t1 with
    | ok a t1 => simp only []; cases prompt w lib key fuel _ <;> simp
    | exit c t1 => simp
    | panic t1 => simp
    | running t1 => simp
  | exit c t1 => simp
  | panic t1 => simp
  | running t1 => simp

/-- A single selection of `Use the GET function `: the address is read and `get` runs,
and when it returns the loop starts again. -/
theorem prompt_get (w : World) (lib : Lib) (key : PrivateKey) (fuel : Nat) (t : Trace)
    (h : w.askOne (t ++ [welcome]) menuLabel menuOptions = ["Use the GET function "]) :
    prompt w lib key (fuel + 1) t =
      (getContractAddressFromUser w >>= fun contractAddress =>
        get w lib contractAddress >>= fun _ =>
        fmtPrintln "Done !\n " >>= fun _ => prompt w lib key fuel)
        (t ++ [welcome, .ask menuLabel menuOptions ["Use the GET function "],
          .print "Processing ...\n \n"]) := by
  simp only [welcome, menuLabel] at h ⊢
  simp only [prompt, goIf, bind_apply, Run.bind, fmtPrintln, emit, Checkboxes, pure_apply,
    List.append_assoc, List.singleton_append, List.cons_append, List.nil_append,
    String.reduceAppend, h, List.length_singleton, ne_eq, not_true_eq_false, if_false,
    index0, if_true, String.reduceEq]
  cases getContractAddressFromUser w _ with
  | ok a t1 =>
    simp only []
    cases get w lib a t1 with
    | ok a t1 => simp only []; cases prompt w lib key fuel _ <;> simp
    | exit c t1 => simp
    | panic t1 => simp
    | running t1 => simp
  | exit c t1 => simp
  | panic t1 => simp
  | running t1 => simp

/-- What follows an action in the loop: the loop ends fairly when the action either
returns into a fair loop or ends the process itself. -/
theorem bind_fair {α : Type} (m : Run α) (f : α → Run Unit) (t : Trace)
    (hm : (m t).OkOrFatal) (hf : ∀ a t1, (f a t1).Fair) : (Run.bind m f t).Fair := by
  unfold Run.bind
  cases h : m t with
  | ok a t1 => exact hf a t1
  | exit c t1 => rw [h] at hm; exact Or.inr hm
  | panic t1 => rw [h] at hm; exact hm.elim
  | running t1 => rw [h] at hm; exact hm.elim

theorem fmtPrintln_okOrFatal (s : String) (t : Trace) : (fmtPrintln s t).OkOrFatal := by
  simp [fmtPrintln, emit, Res.OkOrFatal]

theorem getTransactionHashFromUser_okOrFatal (w : World) (t : Trace) :
    (getTransactionHashFromUser w t).OkOrFatal := by
  rw [getTransactionHashFromUser_eq]
  simp [Res.OkOrFatal]

/-- When the operator can select only offered options, the menu loop never returns and
never panics, and it ends only by `Exit` with status 0 or by a fatal log with status
1. -/
theorem prompt_fair (w : World) (lib : Lib) (key : PrivateKey) (hw : OffersOnly w) :
    ∀ (fuel : Nat) (t : Trace), (prompt w lib key fuel t).Fair
  | 0, t => by simp [prompt, Res.Fair]
  | fuel + 1, t => by
    by_cases hlen : (w.askOne (t ++ [welcome]) menuLabel menuOptions).length = 1
    · obtain ⟨a, ha⟩ := List.length_eq_one.mp hlen
      have hmem : a ∈ menuOptions := hw _ _ _ a (by rw [ha]; simp)
      simp only [menuOptions, List.mem_cons, List.mem_singleton, List.not_mem_nil,
        or_false] at hmem
      rcases hmem with rfl | rfl | rfl | rfl | rfl
      · rw [prompt_deploy w lib key fuel t ha]
        exact bind_fair _ _ _ (deployContract_okOrFatal _ _ _ _) fun _ _ =>
          bind_fair _ _ _ (fmtPrintln_okOrFatal _ _) fun _ _ => prompt_fair w lib key hw fuel _
      · rw [prompt_check w lib key fuel t ha]
        exact bind_fair _ _ _ (getTransactionHashFromUser_okOrFatal _ _) fun _ _ =>
          bind_fair _ _ _ (checkTransaction_okOrFatal _ _ _) fun _ _ =>
          bind_fair _ _ _ (fmtPrintln_okOrFatal _ _) fun _ _ => prompt_fair w lib key hw fuel _
      · rw [prompt_set w lib key fuel t ha]
        exact bind_fair _ _ _ (getContractAddressFromUser_okOrFatal _ _) fun _ _ =>
          bind_fair _ _ _ (set_okOrFatal _ _ _ _ _ _) fun _ _ =>
          bind_fair _ _ _ (fmtPrintln_okOrFatal _ _) fun _ _ => prompt_fair w lib key hw fuel _
      · rw [prompt_get w lib key fuel t ha]
        exact bind_fair _ _ _ (getContractAddressFromUser_okOrFatal _ _) fun _ _ =>
          bind_fair _ _ _ (get_okOrFatal _ _ _ _) fun _ _ =>
          bind_fair _ _ _ (fmtPrintln_okOrFatal _ _) fun _ _ => prompt_fair w lib key hw fuel _
      · rw [prompt_exit w lib key fuel t ha]
        exact Or.inl ⟨rfl, ⟨t ++ [welcome], by simp⟩⟩
    · rw [prompt_reask w lib key fuel t hlen (prompt_fair w lib key hw fuel _)]
      exact prompt_fair w lib key hw fuel _

/-! ## Runs only add to the history -/

theorem extends_bind {α β : Type} {m : Run α} {f : α → Run β} (hm : m.Extends)
    (hf : ∀ a, (f a).Extends) : (m >>= f).Extends := by
  intro t
  have h1 := hm t
  simp only [bind_apply, Run.bind]
  cases h : m t with
  | ok a t1 =>
    rw [h] at h1
    exact h1.trans (hf a t1)
  | exit c t1 => rw [h] at h1; exact h1
  | panic t1 => rw [h] at h1; exact h1
  | running t1 => rw [h] at h1; exact h1

theorem extends_pure {α : Type} (a : α) : (pure a : Run α).Extends := by
  intro t
  simp [Res.trace]

theorem extends_emit (e : Event) : (emit e).Extends := by
  intro t
  simp [emit, Res.trace]

theorem extends_fmtPrintln (s : String) : (fmtPrintln s).Extends := extends_emit _

theorem extends_osExit (c : Nat) : (osExit c : Run Unit).Extends := by
  intro t
  simp [osExit, Res.trace]

theorem extends_index0 (answers : List String) : (index0 answers).Extends := by
  intro t
  cases answers <;> simp [index0, Res.trace]

theorem extends_goIf (c : Prop) [Decidable c] {body : Run Unit} (h : body.Extends) :
    (goIf c body).Extends := by
  unfold goIf
  split
  · exact h
  · exact extends_pure _

theorem extends_Checkboxes (w : World) (label : String) (opts : List String) :
    (Checkboxes w label opts).Extends := by
  intro t
  simp [Checkboxes, Res.trace]

theorem extends_deployContract (w : World) (lib : Lib) (key : PrivateKey) :
    (deployContract w lib key).Extends := by
  intro t
  rw [deployContract_eq]
  repeat' split
  all_goals simp [Res.trace]

theorem extends_checkTransaction (w : World) (txHash : Hash) :
    (checkTransaction w txHash).Extends := by
  intro t
  rw [checkTransaction_eq]
  repeat' split
  all_goals simp [Res.trace]

theorem extends_set (w : World) (lib : Lib) (key : PrivateKey) (a : Address) (value : Nat) :
    (set w lib key a value).Extends := by
  intro t
  rw [set_eq]
  repeat' split
  all_goals simp [Res.trace]

theorem extends_get (w : World) (lib : Lib) (a : Address) : (get w lib a).Extends := by
  intro t
  rw [get_eq]
  repeat' split
  all_goals simp [Res.trace]

theorem extends_getContractAddressFromUser (w : World) :
    (getContractAddressFromUser w).Extends := by
  intro t
  rw [getContractAddressFromUser_eq]
  repeat' split
  all_goals simp [Res.trace]

theorem extends_getTransactionHashFromUser (w : World) :
    (getTransactionHashFromUser w).Extends := by
  intro t
  rw [getTransactionHashFromUser_eq]
  simp [Res.trace]

/-- The statements of `prompt` after the selection is read extend the history, when the
recursive call does. -/
theorem extends_turn (w : World) (lib : Lib) (key : PrivateKey) (fuel : Nat)
    (ih : (prompt w lib key fuel).Extends) (answers : List String) :
    Run.Extends (do
      goIf (answers.length ≠ 1) do
        fmtPrintln "Please select only one option"
        prompt w lib key fuel
      goIf ((← index0 answers) = "Deploy the contract ") do
        fmtPrintln "Processing ...\n "
        let _ ← deployContract w lib key
        fmtPrintln "Done !\n "
        prompt w lib key fuel
      goIf ((← index0 answers) = "Check the transaction ") do
        fmtPrintln "Processing ...\n "
        let txHash ← getTransactionHashFromUser w
        checkTransaction w txHash
        fmtPrintln "Done !\n "
        prompt w lib key fuel
      goIf ((← index0 answers) = "Use the SET function ") do
        fmtPrintln "Processing ...\n "
        let contractAddress ← getContractAddressFromUser w
        set w lib key contractAddress 42
        fmtPrintln "Done !\n "
        prompt w lib key fuel
      goIf ((← index0 answers) = "Use the GET function ") do
        fmtPrintln "Processing ...\n "
        let contractAddress ← getContractAddressFromUser w
        get w lib contractAddress
        fmtPrintln "Done !\n "
        prompt w lib key fuel
      goIf ((← index0 answers) = "Exit") do
        fmtPrintln "Bye Bye\n "
        osExit 0 : Run Unit) := by
  refine extends_bind (extends_goIf _ (extends_bind (extends_fmtPrintln _) fun _ => ih))
    fun _ => ?_
  refine extends_bind (extends_index0 _) fun _ => ?_
  refine extends_bind (extends_goIf _ (extends_bind (extends_fmtPrintln _) fun _ =>
    extends_bind (extends_deployContract _ _ _) fun _ =>
    extends_bind (extends_fmtPrintln _) fun _ => ih)) fun _ => ?_
  refine extends_bind (extends_index0 _) fun _ => ?_
  refine extends_bind (extends_goIf _ (extends_bind (extends_fmtPrintln _) fun _ =>
    extends_bind (extends_getTransactionHashFromUser _) fun _ =>
    extends_bind (extends_checkTransaction _ _) fun _ =>
    extends_bind (extends_fmtPrintln _) fun _ => ih)) fun _ => ?_
  refine extends_bind (extends_index0 _) fun _ => ?_
  refine extends_bind (extends_goIf _ (extends_bind (extends_fmtPrintln _) fun _ =>
    extends_bind (extends_getContractAddressFromUser _) fun _ =>
    extends_bind (extends_set _ _ _ _ _) fun _ =>
    extends_bind (extends_fmtPrintln _) fun _ => ih)) fun _ => ?_
  refine extends_bind (extends_index0 _) fun _ => ?_
  refine extends_bind (extends_goIf _ (extends_bind (extends_fmtPrintln _) fun _ =>
    extends_bind (extends_getContractAddressFromUser _) fun _ =>
    extends_bind (extends_get _ _ _) fun _ =>
    extends_bind (extends_fmtPrintln _) fun _ => ih)) fun _ => ?_
  refine extends_bind (extends_index0 _) fun _ => ?_
  exact extends_goIf _ (extends_bind (extends_fmtPrintln _) fun _ => extends_osExit _)

theorem extends_prompt (w : World) (lib : Lib) (key : PrivateKey) :
    ∀ fuel : Nat, (prompt w lib key fuel).Extends
  | 0 => fun t => by simp [prompt, Res.trace]
  | fuel + 1 => by
    simp only [prompt]
    exact extends_bind (extends_fmtPrintln _) fun _ =>
      extends_bind (extends_Checkboxes _ _ _) fun answers =>
      extends_turn w lib key fuel (extends_prompt w lib key fuel) answers

/-- One turn of the menu loop starts by printing the welcome line and asking the
operator. -/
theorem prompt_shows_menu (w : World) (lib : Lib) (key : PrivateKey) (fuel : Nat)
    (t : Trace) :
    (t ++ [welcome, .ask menuLabel menuOptions
      (w.askOne (t ++ [welcome]) menuLabel menuOptions)]) <+:
      (prompt w lib key (fuel + 1) t).trace := by
  have h := extends_turn w lib key fuel (extends_prompt w lib key fuel)
    (w.askOne (t ++ [welcome]) menuLabel menuOptions)
    (t ++ [welcome, .ask menuLabel menuOptions
      (w.askOne (t ++ [welcome]) menuLabel menuOptions)])
  simp only [welcome, menuLabel] at h ⊢
  simpa only [prompt, bind_apply, Run.bind, fmtPrintln, emit, Checkboxes,
    List.append_assoc, List.singleton_append, List.cons_append, List.nil_append,
    String.reduceAppend] using h

/-! ## Hex text and the bytes it denotes -/

theorem fromHexChar_of_isHexCharacter (c : Nat) (h : isHexCharacter c = true) :
    ∃ v, fromHexChar c = some v ∧ v < 16 := by
  simp only [isHexCharacter, Bool.or_eq_true, Bool.and_eq_true, decide_eq_true_eq] at h
  unfold fromHexChar
  rcases h with (h | h) | h
  · exact ⟨c - 48, by simp [h], by omega⟩
  · refine ⟨c - 97 + 10, ?_, by omega⟩
    have h1 : ¬ (48 ≤ c ∧ c ≤ 57) := by omega
    simp [h1, h]
  · refine ⟨c - 65 + 10, ?_, by omega⟩
    have h1 : ¬ (48 ≤ c ∧ c ≤ 57) := by omega
    have h2 : ¬ (97 ≤ c ∧ c ≤ 102) := by omega
    simp [h1, h2, h]

/-- On an even number of hex digits `Hex2Bytes` yields one byte per pair of digits, and
the bytes denote the number the digits denote. -/
theorem Hex2Bytes_spec : ∀ (ds : List Nat), ds.all isHexCharacter = true →
    ds.length % 2 = 0 →
    (Hex2Bytes ds).length * 2 = ds.length ∧ (∀ b ∈ Hex2Bytes ds, b < 256) ∧
      ∀ acc, (Hex2Bytes ds).foldl (fun acc b => 256 * acc + b) acc =
        ds.foldl (fun acc c => 16 * acc + (fromHexChar c).getD 0) acc
  | [], _, _ => by simp [Hex2Bytes]
  | [_], _, hlen => by simp at hlen
  | p :: q :: rest, hall, hlen => by
    simp only [List.all_cons, Bool.and_eq_true] at hall
    obtain ⟨hp, hq, hrest⟩ := hall
    obtain ⟨a, ha, ha16⟩ := fromHexChar_of_isHexCharacter p hp
    obtain ⟨b, hb, hb16⟩ := fromHexChar_of_isHexCharacter q hq
    have hlen' : rest.length % 2 = 0 := by
      simp only [List.length_cons] at hlen
      omega
    obtain ⟨h1, h2, h3⟩ := Hex2Bytes_spec rest hrest hlen'
    refine ⟨?_, ?_, ?_⟩
    · simp only [Hex2Bytes, ha, hb, List.length_cons]
      omega
    · intro x hx
      simp only [Hex2Bytes, ha, hb, List.mem_cons] at hx
      rcases hx with rfl | hx
      · omega
      · exact h2 x hx
    · intro acc
      simp only [Hex2Bytes, ha, hb, List.foldl_cons, Option.getD_some]
      rw [h3]
      congr 1
      ring

theorem has0x_of_hex (ds : List Nat) (h : ds.all isHexCharacter = true) :
    has0x ds = false := by
  match ds, h with
  | [], _ => rfl
  | [_], _ => rfl
  | c0 :: c1 :: _, h =>
    simp only [List.all_cons, Bool.and_eq_true] at h
    have h1 := h.2.1
    simp only [isHexCharacter, Bool.or_eq_true, Bool.and_eq_true, decide_eq_true_eq] at h1
    have : c1 ≠ 120 ∧ c1 ≠ 88 := by omega
    simp [has0x, this.1, this.2]

/-- The function `FromHex` on an even number of hex digits, with or without the prefix
`0x`, is `Hex2Bytes` of the digits. -/
theorem FromHex_of_hex (ds : List Nat) (h : ds.all isHexCharacter = true)
    (hlen : ds.length % 2 = 0) :
    FromHex ds = Hex2Bytes ds ∧ FromHex (48 :: 120 :: ds) = Hex2Bytes ds := by
  constructor
  · simp [FromHex, has0x_of_hex ds h, hlen]
  · simp [FromHex, has0x, hlen]

theorem setBytes_of_length (n : Nat) (b : List Nat) (h : b.length = n) :
    setBytes n b = b := by
  simp [setBytes, h]

/-- A text of exactly 64 hex digits, with or without the prefix `0x`, converts to the 32
bytes it denotes. -/
theorem HexToHash_of_digits (s : String) (ds : List Nat) (hlen : ds.length = 64)
    (hall : ds.all isHexCharacter = true)
    (hs : goBytes s = ds ∨ goBytes s = 48 :: 120 :: ds) :
    (HexToHash s).bytes.length = 32 ∧ (∀ b ∈ (HexToHash s).bytes, b < 256) ∧
      bytesValue (HexToHash s).bytes = hexValue ds := by
  have hev : ds.length % 2 = 0 := by omega
  obtain ⟨h1, h2, h3⟩ := Hex2Bytes_spec ds hall hev
  have hfrom : FromHex (goBytes s) = Hex2Bytes ds := by
    rcases hs with hs | hs
    · rw [hs]; exact (FromHex_of_hex ds hall hev).1
    · rw [hs]; exact (FromHex_of_hex ds hall hev).2
  have hl : (Hex2Bytes ds).length = HashLength := by
    simp only [HashLength]
    omega
  have hb : (HexToHash s).bytes = Hex2Bytes ds := by
    simp only [HexToHash, hfrom, setBytes_of_length _ _ hl]
  rw [hb]
  exact ⟨by simpa [HashLength] using hl, h2, h3 0⟩

/-- A text that `IsHexAddress` accepts is 40 hex digits with or without a prefix `0x` or
`0X`, and `HexToAddress` converts it to the 20 bytes the digits denote. -/
theorem HexToAddress_of_IsHexAddress (s : String) (h : IsHexAddress s = true) :
    (hexDigitsOf s).length = 40 ∧ (hexDigitsOf s).all isHexCharacter = true ∧
      (HexToAddress s).bytes.length = 20 ∧ (∀ b ∈ (HexToAddress s).bytes, b < 256) ∧
      bytesValue (HexToAddress s).bytes = hexValue (hexDigitsOf s) := by
  have h' : (hexDigitsOf s).length = 40 ∧ isHex (hexDigitsOf s) = true := by
    simpa [IsHexAddress, AddressLength, hexDigitsOf] using h
  obtain ⟨hlen, hhex⟩ := h'
  have hall : (hexDigitsOf s).all isHexCharacter = true := by
    unfold isHex at hhex
    split at hhex
    · exact absurd hhex (by simp)
    · exact hhex
  have hlen' : (hexDigitsOf s).length = 40 := hlen
  have hev : (hexDigitsOf s).length % 2 = 0 := by omega
  obtain ⟨h1, h2, h3⟩ := Hex2Bytes_spec _ hall hev
  have hfrom : FromHex (goBytes s) = Hex2Bytes (hexDigitsOf s) := by
    have : (if (hexDigitsOf s).length % 2 == 1 then 48 :: hexDigitsOf s else hexDigitsOf s) =
        hexDigitsOf s := by simp [hev]
    simp only [FromHex]
    exact congrArg Hex2Bytes this
  have hl : (Hex2Bytes (hexDigitsOf s)).length = AddressLength := by
    simp only [AddressLength]
    omega
  have hb : (HexToAddress s).bytes = Hex2Bytes (hexDigitsOf s) := by
    simp only [HexToAddress, hfrom, setBytes_of_length _ _ hl]
  rw [hb]
  exact ⟨hlen', hall, by simpa [AddressLength] using hl, h2, h3 0⟩

/-! ## Signing, and the two answers of a fallible call -/

/-- A signed transaction is a copy of the unsigned one: signing changes only the
signature values. -/
theorem SignTx_ok (lib : Lib) (tx stx : Transaction) (chainID : Int) (key : PrivateKey)
    (h : SignTx lib tx chainID key = .ok stx) :
    stx.nonce = tx.nonce ∧ stx.recipient = tx.recipient ∧ stx.value = tx.value ∧
      stx.gasLimit = tx.gasLimit ∧ stx.gasPrice = tx.gasPrice ∧ stx.data = tx.data := by
  unfold SignTx at h
  split at h
  · cases h
  · cases h
    simp

theorem except_cases {ε α : Type} (x : Except ε α) :
    (∃ e, x = .error e) ∨ ∃ a, x = .ok a := by
  cases x with
  | error e => exact Or.inl ⟨e, rfl⟩
  | ok a => exact Or.inr ⟨a, rfl⟩

/-! ## The example world and the whole program -/

/-- The operator of the example world selects only offered options. -/
theorem offersOnly_scripted (menu : List (List String)) (lines : List String) :
    OffersOnly (scripted menu lines) := by
  intro t label opts a ha
  simp only [scripted, List.mem_filter, decide_eq_true_eq] at ha
  exact ha.2

theorem dial_okOrFatal (w : World) (url : String) (t : Trace) : (dial w url t).OkOrFatal := by
  simp [dial, Res.OkOrFatal]

theorem hexToECDSA_okOrFatal (lib : Lib) (hex : String) (t : Trace) :
    (hexToECDSA lib hex t).OkOrFatal := by
  simp [hexToECDSA, Res.OkOrFatal]

theorem orFatal_okOrFatal {α : Type} (msg : String) (x : Except String α) (t : Trace) :
    (orFatal msg x t).OkOrFatal := by
  cases x <;> simp [orFatal, logFatal, Res.OkOrFatal]

theorem errFatal_okOrFatal (msg : String) (x : Option String) (t : Trace) :
    (errFatal msg x t).OkOrFatal := by
  cases x <;> simp [errFatal, logFatal, Res.OkOrFatal]

/-- When the operator can select only offered options, the program never returns from
`main` and never panics, and it ends only by `Exit` with status 0 or by a fatal log with
status 1. -/
theorem main_fair (w : World) (lib : Lib) (hw : OffersOnly w) (fuel : Nat) (t : Trace) :
    (main w lib fuel t).Fair := by
  unfold main
  exact bind_fair _ _ _ (dial_okOrFatal _ _ _) fun _ _ =>
    bind_fair _ _ _ (errFatal_okOrFatal _ _ _) fun _ _ =>
    bind_fair _ _ _ (hexToECDSA_okOrFatal _ _ _) fun _ _ =>
    bind_fair _ _ _ (orFatal_okOrFatal _ _ _) fun _ _ => prompt_fair w lib _ hw fuel _

/-! ## The claims -/

/-- C1.  When the operator can select only offered options and the selection made at the
menu is not exactly one option (none, or two or more, whichever they are), `prompt`
prints `Please select only one option` and shows the menu again, and that is all it
does for the selection: the rest of the run is the run of the menu loop started afresh
after the error line.  The recursive call never returns, so the comparisons of
`answers[0]` below it are never reached for the selection and an empty selection causes
no panic; and the process exits with status 0 only right after a later single selection
of `Exit`. -/
theorem bad_selection_shows_menu_again (w : World) (lib : Lib) (key : PrivateKey)
    (hw : OffersOnly w) (fuel : Nat) (t : Trace) (hlen : (menuAnswer w t).length ≠ 1) :
    prompt w lib key (fuel + 1) t =
        prompt w lib key fuel (afterMenu w t ++ [.print "Please select only one option\n"]) ∧
      afterMenu w (afterMenu w t ++ [.print "Please select only one option\n"]) <+:
        (prompt w lib key (fuel + 2) t).trace ∧
      (∀ t2, prompt w lib key fuel
        (afterMenu w t ++ [.print "Please select only one option\n"]) ≠ .ok () t2) ∧
      (∀ t2, prompt w lib key (fuel + 1) t ≠ .panic t2) ∧
      (∀ t2, prompt w lib key (fuel + 1) t = .exit 0 t2 →
        [.ask menuLabel menuOptions ["Exit"], .print "Bye Bye\n \n"] <:+ t2) := by
  have hre : ∀ fuel, prompt w lib key (fuel + 1) t =
      prompt w lib key fuel (afterMenu w t ++ [.print "Please select only one option\n"]) := by
    intro fuel
    have h := prompt_reask w lib key fuel t hlen (prompt_fair w lib key hw fuel _)
    simpa only [afterMenu, menuAnswer, List.append_assoc, List.singleton_append,
      List.cons_append, List.nil_append] using h
  have hfair := prompt_fair w lib key hw
  refine ⟨hre fuel, ?_, ?_, ?_, ?_⟩
  · rw [hre (fuel + 1)]
    exact prompt_shows_menu w lib key fuel _
  · intro t2 h2
    have := hfair fuel (afterMenu w t ++ [.print "Please select only one option\n"])
    rw [h2] at this
    exact this
  · intro t2 h2
    have := hfair (fuel + 1) t
    rw [h2] at this
    exact this
  · intro t2 h2
    have := hfair (fuel + 1) t
    rw [h2] at this
    rcases this with ⟨_, h⟩ | ⟨h, _⟩
    · exact h
    · exact absurd h (by decide)

/-- An empty selection followed by `Exit`: a witness of C1. -/
theorem bad_selection_shows_menu_again_witness :
    OffersOnly (scripted [[], ["Exit"]] []) ∧
      (menuAnswer (scripted [[], ["Exit"]] []) []).length ≠ 1 ∧
      prompt (scripted [[], ["Exit"]] []) lib0 key0 2 [] =
        .exit 0 [welcome, .ask menuLabel menuOptions [],
          .print "Please select only one option\n", welcome,
          .ask menuLabel menuOptions ["Exit"], .print "Bye Bye\n \n"] :=
  ⟨offersOnly_scripted _ _, by decide,
    (bad_selection_shows_menu_again (scripted [[], ["Exit"]] []) lib0 key0
      (offersOnly_scripted _ _) 1 [] (by decide)).1.trans (by decide)⟩

/-- C2.  When the client returns a receipt without error, `checkTransaction` has exactly
one of two outcomes, decided by the status of the receipt alone: status 1 prints
`Transaction succeeded` and returns without ending the process; any other status prints
`Gas used: ` followed by the gas-used count of the receipt and then ends the process
with status 1.  Every status is 1 or is not, so every receipt has one of the two
outcomes. -/
theorem checkTransaction_with_receipt (w : World) (txHash : Hash) (t : Trace)
    (receipt : Receipt) (h : w.transactionReceipt t txHash = (some receipt, none)) :
    (receipt.status = 1 → checkTransaction w txHash t =
      .ok () (t ++ [.transactionReceipt txHash, .print "Transaction succeeded\n"])) ∧
    (receipt.status ≠ 1 → checkTransaction w txHash t =
      .exit 1 (t ++ [.transactionReceipt txHash,
        .print ("Gas used: " ++ toString receipt.gasUsed ++ "\n"),
        .log ("Transaction failed - status:  " ++ toString receipt.status ++ "\n")])) := by
  rw [checkTransaction_eq, h]
  refine ⟨fun hs => ?_, fun hs => ?_⟩ <;> simp [hs]

/-- A receipt with status 0 and 21000 gas used: a witness of C2. -/
theorem checkTransaction_with_receipt_witness :
    checkTransaction { scripted [] [] with
        transactionReceipt := fun _ _ => (some ⟨0, 21000⟩, none) } ⟨[1]⟩ [] =
      .exit 1 [.transactionReceipt ⟨[1]⟩, .print "Gas used: 21000\n",
        .log "Transaction failed - status:  0\n"] :=
  (checkTransaction_with_receipt { scripted [] [] with
    transactionReceipt := fun _ _ => (some ⟨0, 21000⟩, none) } ⟨[1]⟩ [] ⟨0, 21000⟩ rfl).2
    (by decide)

/-- C3, on the code.  When the client reports a missing receipt as an error, the way
`ethclient.TransactionReceipt` of go-ethereum does with `ethereum.NotFound` (`not
found`), `checkTransaction` takes the error branch first: the process ends with status 1
after the fatal log `Failed to get transaction receipt: not found`, and never reads the
`receipt == nil` test that reports `Transaction is still pending`.  That test decides
only when the client returns neither a receipt nor an error. -/
theorem checkTransaction_without_receipt :
    checkTransaction { scripted [] [] with
        transactionReceipt := fun _ _ => (none, some "not found") } ⟨[1]⟩ [] =
      .exit 1 [.transactionReceipt ⟨[1]⟩,
        .log "Failed to get transaction receipt: not found"] ∧
    checkTransaction { scripted [] [] with
        transactionReceipt := fun _ _ => (none, none) } ⟨[1]⟩ [] =
      .exit 1 [.transactionReceipt ⟨[1]⟩, .log "Transaction is still pending"] := by
  decide

/-- C4.  For the Set and the Get action alike, the line the operator types at the
address prompt decides.  If its trimmed text is not a well-formed hex address
(`IsHexAddress`: 40 hex digits with an optional prefix `0x`), the process ends with
status 1 right after the line is read: the fatal log `Invalid contract address` is the
only event that follows, so no instance is loaded, no transactor is built, no call is
sent and the operator is not asked again.  If it is well formed, the action goes on
with the address the text denotes: `set` (with 42) or `get` runs on `HexToAddress` of
the trimmed text, whose 20 bytes denote the number the 40 digits denote. -/
theorem address_input_decides (w : World) (lib : Lib) (key : PrivateKey) (fuel : Nat)
    (t : Trace) (line : String)
    (hline : w.readString (afterMenu w t ++ [.print "Processing ...\n \n",
      .print "Please enter the contract address: "]) = line) :
    (IsHexAddress (TrimSpace line) = false →
      (menuAnswer w t = ["Use the SET function "] ∨
        menuAnswer w t = ["Use the GET function "]) →
      prompt w lib key (fuel + 1) t =
        .exit 1 (afterMenu w t ++ [.print "Processing ...\n \n",
          .print "Please enter the contract address: ", .readLine line,
          .log "Invalid contract address"])) ∧
    (IsHexAddress (TrimSpace line) = true →
      (menuAnswer w t = ["Use the SET function "] →
        prompt w lib key (fuel + 1) t =
          (set w lib key (HexToAddress (TrimSpace line)) 42 >>= fun _ =>
            fmtPrintln "Done !\n " >>= fun _ => prompt w lib key fuel)
            (afterMenu w t ++ [.print "Processing ...\n \n",
              .print "Please enter the contract address: ", .readLine line])) ∧
      (menuAnswer w t = ["Use the GET function "] →
        prompt w lib key (fuel + 1) t =
          (get w lib (HexToAddress (TrimSpace line)) >>= fun _ =>
            fmtPrintln "Done !\n " >>= fun _ => prompt w lib key fuel)
            (afterMenu w t ++ [.print "Processing ...\n \n",
              .print "Please enter the contract address: ", .readLine line])) ∧
      (hexDigitsOf (TrimSpace line)).length = 40 ∧
      (hexDigitsOf (TrimSpace line)).all isHexCharacter = true ∧
      (HexToAddress (TrimSpace line)).bytes.length = 20 ∧
      (∀ b ∈ (HexToAddress (TrimSpace line)).bytes, b < 256) ∧
      bytesValue (HexToAddress (TrimSpace line)).bytes =
        hexValue (hexDigitsOf (TrimSpace line))) := by
  have hread : getContractAddressFromUser w (afterMenu w t ++ [.print "Processing ...\n \n"]) =
      if IsHexAddress (TrimSpace line) then
        .ok (HexToAddress (TrimSpace line))
          (afterMenu w t ++ [.print "Processing ...\n \n",
            .print "Please enter the contract address: ", .readLine line])
      else
        .exit 1 (afterMenu w t ++ [.print "Processing ...\n \n",
          .print "Please enter the contract address: ", .readLine line,
          .log "Invalid contract address"]) := by
    rw [getContractAddressFromUser_eq]
    simp only [List.append_assoc, List.singleton_append, List.cons_append, List.nil_append]
      at hline ⊢
    rw [hline]
  have hset : menuAnswer w t = ["Use the SET function "] →
      prompt w lib key (fuel + 1) t =
        (getContractAddressFromUser w >>= fun contractAddress =>
          set w lib key contractAddress 42 >>= fun _ =>
          fmtPrintln "Done !\n " >>= fun _ => prompt w lib key fuel)
          (afterMenu w t ++ [.print "Processing ...\n \n"]) := by
    intro h
    have h1 := prompt_set w lib key fuel t h
    simpa only [afterMenu, h, List.append_assoc, List.singleton_append, List.cons_append,
      List.nil_append] using h1
  have hget : menuAnswer w t = ["Use the GET function "] →
      prompt w lib key (fuel + 1) t =
        (getContractAddressFromUser w >>= fun contractAddress =>
          get w lib contractAddress >>= fun _ =>
          fmtPrintln "Done !\n " >>= fun _ => prompt w lib key fuel)
          (afterMenu w t ++ [.print "Processing ...\n \n"]) := by
    intro h
    have h1 := prompt_get w lib key fuel t h
    simpa only [afterMenu, h, List.append_assoc, List.singleton_append, List.cons_append,
      List.nil_append] using h1
  refine ⟨fun hbad hsel => ?_, fun hgood => ⟨fun hsel => ?_, fun hsel => ?_, ?_⟩⟩
  · rcases hsel with hsel | hsel
    · rw [hset hsel, bind_apply]
      simp only [Run.bind, hread, hbad, Bool.false_eq_true, if_false]
    · rw [hget hsel, bind_apply]
      simp only [Run.bind, hread, hbad, Bool.false_eq_true, if_false]
  · rw [hset hsel, bind_apply]
    simp only [Run.bind, hread, hgood, if_true, bind_apply]
  · rw [hget hsel, bind_apply]
    simp only [Run.bind, hread, hgood, if_true, bind_apply]
  · exact HexToAddress_of_IsHexAddress _ hgood

/-- The operator selects `Use the SET function ` and types a text that is no address: a
witness of C4. -/
theorem address_input_decides_witness :
    IsHexAddress (TrimSpace "0x1234\n") = false ∧
      menuAnswer (scripted [["Use the SET function "]] ["0x1234\n"]) [] =
        ["Use the SET function "] ∧
      prompt (scripted [["Use the SET function "]] ["0x1234\n"]) lib0 key0 2 [] =
        .exit 1 [welcome, .ask menuLabel menuOptions ["Use the SET function "],
          .print "Processing ...\n \n", .print "Please enter the contract address: ",
          .readLine "0x1234\n", .log "Invalid contract address"] :=
  ⟨by decide, by decide,
    (address_input_decides (scripted [["Use the SET function "]] ["0x1234\n"]) lib0 key0 1
      [] "0x1234\n" (by decide)).1 (by decide) (Or.inl (by decide))⟩

/-- C5.  Whenever `deployContract` returns, the address it returns is
`crypto.CreateAddress` of the address of the signing key and the nonce `n` that the
pending-nonce query answered; `n` is also the nonce of the transaction that was
submitted; and the code the node reported at that address, asked after the submission,
was not empty.  If instead the node reports empty code at the computed address,
`deployContract` returns no address: the process ends with status 1 after the fatal log
`No contract code found at the address`. -/
theorem deployContract_returns_created_address (w : World) (lib : Lib) (key : PrivateKey)
    (t : Trace) :
    (∀ (a : Address) (t1 : Trace), deployContract w lib key t = .ok a t1 →
      ∃ n bin chainID stx code,
        w.pendingNonceAt t (lib.pubkeyToAddress key) = .ok n ∧
        a = lib.createAddress (lib.pubkeyToAddress key) n ∧
        SignTx lib (NewContractCreation n 0 3500000 none bin) chainID key = .ok stx ∧
        stx.nonce = n ∧
        t1 = t ++ [.pendingNonceAt (lib.pubkeyToAddress key),
          .readFile "SimpleStorage.bin", .networkID,
          .signTx (NewContractCreation n 0 3500000 none bin) chainID key,
          .sendTransaction stx, .print "Contract deployed !! \n",
          .print ("Transaction hash: " ++ lib.hashHex (lib.txHash stx) ++ "\n"),
          .print ("Contract address: " ++ lib.addressHex a ++ "\n"), .codeAt a] ∧
        w.codeAt (t ++ [.pendingNonceAt (lib.pubkeyToAddress key),
          .readFile "SimpleStorage.bin", .networkID,
          .signTx (NewContractCreation n 0 3500000 none bin) chainID key,
          .sendTransaction stx, .print "Contract deployed !! \n",
          .print ("Transaction hash: " ++ lib.hashHex (lib.txHash stx) ++ "\n"),
          .print ("Contract address: " ++ lib.addressHex a ++ "\n")]) a = .ok code ∧
        code ≠ []) ∧
    (∀ (n : Nat) (bin : List Nat) (chainID : Int) (stx : Transaction),
      w.pendingNonceAt t (lib.pubkeyToAddress key) = .ok n →
      w.readFile (t ++ [.pendingNonceAt (lib.pubkeyToAddress key)]) "SimpleStorage.bin" =
        .ok bin →
      w.networkID (t ++ [.pendingNonceAt (lib.pubkeyToAddress key),
        .readFile "SimpleStorage.bin"]) = .ok chainID →
      SignTx lib (NewContractCreation n 0 3500000 none bin) chainID key = .ok stx →
      w.sendTransaction (t ++ [.pendingNonceAt (lib.pubkeyToAddress key),
        .readFile "SimpleStorage.bin", .networkID,
        .signTx (NewContractCreation n 0 3500000 none bin) chainID key]) stx = none →
      w.codeAt (t ++ [.pendingNonceAt (lib.pubkeyToAddress key),
        .readFile "SimpleStorage.bin", .networkID,
        .signTx (NewContractCreation n 0 3500000 none bin) chainID key,
        .sendTransaction stx, .print "Contract deployed !! \n",
        .print ("Transaction hash: " ++ lib.hashHex (lib.txHash stx) ++ "\n"),
        .print ("Contract address: " ++
          lib.addressHex (lib.createAddress (lib.pubkeyToAddress key) n) ++ "\n")])
        (lib.createAddress (lib.pubkeyToAddress key) n) = .ok [] →
      deployContract w lib key t =
        .exit 1 (t ++ [.pendingNonceAt (lib.pubkeyToAddress key),
          .readFile "SimpleStorage.bin", .networkID,
          .signTx (NewContractCreation n 0 3500000 none bin) chainID key,
          .sendTransaction stx, .print "Contract deployed !! \n",
          .print ("Transaction hash: " ++ lib.hashHex (lib.txHash stx) ++ "\n"),
          .print ("Contract address: " ++
            lib.addressHex (lib.createAddress (lib.pubkeyToAddress key) n) ++ "\n"),
          .codeAt (lib.createAddress (lib.pubkeyToAddress key) n),
          .log "No contract code found at the address"])) := by
  constructor
  · intro a t1 h
    rw [deployContract_eq] at h
    split at h
    · cases h
    next n hn =>
    split at h
    · cases h
    next bin hbin =>
    split at h
    · cases h
    next chainID hchain =>
    split at h
    · cases h
    next stx hsign =>
    split at h
    · cases h
    next hsend =>
    split at h
    · cases h
    next code hcode =>
    split at h
    · cases h
    next hne =>
    cases h
    refine ⟨n, bin, chainID, stx, code, hn, rfl, hsign, ?_, rfl, hcode, ?_⟩
    · exact (SignTx_ok lib _ stx chainID key hsign).1
    · intro hc
      exact hne (by simp [hc])
  · intro n bin chainID stx hn hbin hchain hsign hsend hcode
    rw [deployContract_eq]
    simp only [hn, hbin, hchain, hsign, hsend, hcode, List.length_nil, if_true]

/-- A deployment in the example world, where every step succeeds: a witness of C5. -/
theorem deployContract_returns_created_address_witness :
    deployContract (scripted [] []) lib0 key0 [] =
        .ok ⟨List.replicate 20 8⟩
          [.pendingNonceAt ⟨List.replicate 20 1⟩, .readFile "SimpleStorage.bin",
            .networkID,
            .signTx (NewContractCreation 7 0 3500000 none [96, 128]) 5 key0,
            .sendTransaction
              { NewContractCreation 7 0 3500000 none [96, 128] with v := 45, r := 1, s := 1 },
            .print "Contract deployed !! \n", .print "Transaction hash: 0x32\n",
            .print "Contract address: 0x20\n", .codeAt ⟨List.replicate 20 8⟩] ∧
      ∃ (n : Nat) (stx : Transaction) (code : List Nat),
        (scripted [] []).pendingNonceAt [] (lib0.pubkeyToAddress key0) = .ok n ∧
        (⟨List.replicate 20 8⟩ : Address) = lib0.createAddress (lib0.pubkeyToAddress key0) n ∧
        stx.nonce = n ∧ code ≠ [] := by
  have h : deployContract (scripted [] []) lib0 key0 [] =
      .ok ⟨List.replicate 20 8⟩
        [.pendingNonceAt ⟨List.replicate 20 1⟩, .readFile "SimpleStorage.bin",
          .networkID,
          .signTx (NewContractCreation 7 0 3500000 none [96, 128]) 5 key0,
          .sendTransaction
            { NewContractCreation 7 0 3500000 none [96, 128] with v := 45, r := 1, s := 1 },
          .print "Contract deployed !! \n", .print "Transaction hash: 0x32\n",
          .print "Contract address: 0x20\n", .codeAt ⟨List.replicate 20 8⟩] := by decide
  obtain ⟨n, _, _, stx, code, h1, h2, _, h4, _, _, h7⟩ :=
    (deployContract_returns_created_address (scripted [] []) lib0 key0 []).1 _ _ h
  exact ⟨h, n, stx, code, h1, h2, h4, h7⟩

/-- C6.  The steps of `deployContract` run in the fixed order nonce query, file read,
construction of the transaction, chain-id query, signing, submission, code query; the
first step that fails ends the process with status 1 after its fatal log, and no later
step is performed and none is tried again.  So one run signs at most once and submits at
most once, and what it submits exists only if the nonce query, the file read, the
chain-id query and the signing all succeeded: it is the signed copy of a contract
creation (no recipient) with value 0, gas limit 3500000, the nonce the node answered and
the bytes of the file as payload, signed for the chain id the node answered. -/
theorem deployContract_steps_in_order (w : World) (lib : Lib) (key : PrivateKey)
    (t : Trace) :
    (∀ e, w.pendingNonceAt t (lib.pubkeyToAddress key) = .error e →
      deployContract w lib key t =
        .exit 1 (t ++ [.pendingNonceAt (lib.pubkeyToAddress key),
          .log ("Failed to get nonce: " ++ e)])) ∧
    (∀ n e, w.pendingNonceAt t (lib.pubkeyToAddress key) = .ok n →
      w.readFile (t ++ [.pendingNonceAt (lib.pubkeyToAddress key)]) "SimpleStorage.bin" =
        .error e →
      deployContract w lib key t =
        .exit 1 (t ++ [.pendingNonceAt (lib.pubkeyToAddress key),
          .readFile "SimpleStorage.bin",
          .log ("Failed to read contract bytecode: " ++ e)])) ∧
    (∀ n bin e, w.pendingNonceAt t (lib.pubkeyToAddress key) = .ok n →
      w.readFile (t ++ [.pendingNonceAt (lib.pubkeyToAddress key)]) "SimpleStorage.bin" =
        .ok bin →
      w.networkID (t ++ [.pendingNonceAt (lib.pubkeyToAddress key),
        .readFile "SimpleStorage.bin"]) = .error e →
      deployContract w lib key t =
        .exit 1 (t ++ [.pendingNonceAt (lib.pubkeyToAddress key),
          .readFile "SimpleStorage.bin", .networkID,
          .log ("Failed to get network ID: " ++ e)])) ∧
    (∀ n bin chainID e, w.pendingNonceAt t (lib.pubkeyToAddress key) = .ok n →
      w.readFile (t ++ [.pendingNonceAt (lib.pubkeyToAddress key)]) "SimpleStorage.bin" =
        .ok bin →
      w.networkID (t ++ [.pendingNonceAt (lib.pubkeyToAddress key),
        .readFile "SimpleStorage.bin"]) = .ok chainID →
      SignTx lib (NewContractCreation n 0 3500000 none bin) chainID key = .error e →
      deployContract w lib key t =
        .exit 1 (t ++ [.pendingNonceAt (lib.pubkeyToAddress key),
          .readFile "SimpleStorage.bin", .networkID,
          .signTx (NewContractCreation n 0 3500000 none bin) chainID key,
          .log ("Failed to sign transaction: " ++ e)])) ∧
    (∀ n bin chainID stx e, w.pendingNonceAt t (lib.pubkeyToAddress key) = .ok n →
      w.readFile (t ++ [.pendingNonceAt (lib.pubkeyToAddress key)]) "SimpleStorage.bin" =
        .ok bin →
      w.networkID (t ++ [.pendingNonceAt (lib.pubkeyToAddress key),
        .readFile "SimpleStorage.bin"]) = .ok chainID →
      SignTx lib (NewContractCreation n 0 3500000 none bin) chainID key = .ok stx →
      w.sendTransaction (t ++ [.pendingNonceAt (lib.pubkeyToAddress key),
        .readFile "SimpleStorage.bin", .networkID,
        .signTx (NewContractCreation n 0 3500000 none bin) chainID key]) stx = some e →
      deployContract w lib key t =
        .exit 1 (t ++ [.pendingNonceAt (lib.pubkeyToAddress key),
          .readFile "SimpleStorage.bin", .networkID,
          .signTx (NewContractCreation n 0 3500000 none bin) chainID key,
          .sendTransaction stx, .log ("Failed to send transaction: " ++ e)])) ∧
    (∀ n bin chainID stx e, w.pendingNonceAt t (lib.pubkeyToAddress key) = .ok n →
      w.readFile (t ++ [.pendingNonceAt (lib.pubkeyToAddress key)]) "SimpleStorage.bin" =
        .ok bin →
      w.networkID (t ++ [.pendingNonceAt (lib.pubkeyToAddress key),
        .readFile "SimpleStorage.bin"]) = .ok chainID →
      SignTx lib (NewContractCreation n 0 3500000 none bin) chainID key = .ok stx →
      w.sendTransaction (t ++ [.pendingNonceAt (lib.pubkeyToAddress key),
        .readFile "SimpleStorage.bin", .networkID,
        .signTx (NewContractCreation n 0 3500000 none bin) chainID key]) stx = none →
      w.codeAt (t ++ [.pendingNonceAt (lib.pubkeyToAddress key),
        .readFile "SimpleStorage.bin", .networkID,
        .signTx (NewContractCreation n 0 3500000 none bin) chainID key,
        .sendTransaction stx, .print "Contract deployed !! \n",
        .print ("Transaction hash: " ++ lib.hashHex (lib.txHash stx) ++ "\n"),
        .print ("Contract address: " ++
          lib.addressHex (lib.createAddress (lib.pubkeyToAddress key) n) ++ "\n")])
        (lib.createAddress (lib.pubkeyToAddress key) n) = .error e →
      deployContract w lib key t =
        .exit 1 (t ++ [.pendingNonceAt (lib.pubkeyToAddress key),
          .readFile "SimpleStorage.bin", .networkID,
          .signTx (NewContractCreation n 0 3500000 none bin) chainID key,
          .sendTransaction stx, .print "Contract deployed !! \n",
          .print ("Transaction hash: " ++ lib.hashHex (lib.txHash stx) ++ "\n"),
          .print ("Contract address: " ++
            lib.addressHex (lib.createAddress (lib.pubkeyToAddress key) n) ++ "\n"),
          .codeAt (lib.createAddress (lib.pubkeyToAddress key) n),
          .log ("Failed to get contract code: " ++ e)])) ∧
    ((deployContract w lib key t).trace.drop t.length).countP Event.isSign ≤ 1 ∧
    ((deployContract w lib key t).trace.drop t.length).countP Event.isSend ≤ 1 ∧
    (∀ stx, Event.sendTransaction stx ∈ (deployContract w lib key t).trace.drop t.length →
      ∃ n bin chainID,
        w.pendingNonceAt t (lib.pubkeyToAddress key) = .ok n ∧
        w.readFile (t ++ [.pendingNonceAt (lib.pubkeyToAddress key)]) "SimpleStorage.bin" =
          .ok bin ∧
        w.networkID (t ++ [.pendingNonceAt (lib.pubkeyToAddress key),
          .readFile "SimpleStorage.bin"]) = .ok chainID ∧
        SignTx lib (NewContractCreation n 0 3500000 none bin) chainID key = .ok stx ∧
        stx.recipient = none ∧ stx.value = 0 ∧ stx.gasLimit = 3500000 ∧ stx.nonce = n ∧
        stx.data = bin) := by
  refine ⟨?_, ?_, ?_, ?_, ?_, ?_, ?_⟩
  · intro e h1
    rw [deployContract_eq]; simp only [h1]
  · intro n e h1 h2
    rw [deployContract_eq]; simp only [h1, h2]
  · intro n bin e h1 h2 h3
    rw [deployContract_eq]; simp only [h1, h2, h3]
  · intro n bin chainID e h1 h2 h3 h4
    rw [deployContract_eq]; simp only [h1, h2, h3, h4]
  · intro n bin chainID stx e h1 h2 h3 h4 h5
    rw [deployContract_eq]; simp only [h1, h2, h3, h4, h5]
  · intro n bin chainID stx e h1 h2 h3 h4 h5 h6
    rw [deployContract_eq]; simp only [h1, h2, h3, h4, h5, h6]
  · rw [deployContract_eq]
    rcases except_cases (w.pendingNonceAt t (lib.pubkeyToAddress key)) with ⟨e, h1⟩ | ⟨n, h1⟩
    · simp [h1, Res.trace, Event.isSign, Event.isSend]
    rcases except_cases (w.readFile (t ++ [.pendingNonceAt (lib.pubkeyToAddress key)])
      "SimpleStorage.bin") with ⟨e, h2⟩ | ⟨bin, h2⟩
    · simp [h1, h2, Res.trace, Event.isSign, Event.isSend]
    rcases except_cases (w.networkID (t ++ [.pendingNonceAt (lib.pubkeyToAddress key),
      .readFile "SimpleStorage.bin"])) with ⟨e, h3⟩ | ⟨chainID, h3⟩
    · simp [h1, h2, h3, Res.trace, Event.isSign, Event.isSend]
    rcases except_cases (SignTx lib (NewContractCreation n 0 3500000 none bin) chainID key)
      with ⟨e, h4⟩ | ⟨stx, h4⟩
    · simp [h1, h2, h3, h4, Res.trace, Event.isSign, Event.isSend]
    have hs := SignTx_ok lib _ stx chainID key h4
    simp only [NewContractCreation] at hs
    have hstx : ∀ stx', Event.sendTransaction stx' = Event.sendTransaction stx →
        ∃ n' bin' chainID',
          w.pendingNonceAt t (lib.pubkeyToAddress key) = .ok n' ∧
          w.readFile (t ++ [.pendingNonceAt (lib.pubkeyToAddress key)])
            "SimpleStorage.bin" = .ok bin' ∧
          w.networkID (t ++ [.pendingNonceAt (lib.pubkeyToAddress key),
            .readFile "SimpleStorage.bin"]) = .ok chainID' ∧
          SignTx lib (NewContractCreation n' 0 3500000 none bin') chainID' key = .ok stx' ∧
          stx'.recipient = none ∧ stx'.value = 0 ∧ stx'.gasLimit = 3500000 ∧
          stx'.nonce = n' ∧ stx'.data = bin' := by
      intro stx' hm
      cases hm
      exact ⟨n, bin, chainID, h1, h2, h3, h4, hs.2.1, hs.2.2.1, hs.2.2.2.1, hs.1,
        hs.2.2.2.2.2⟩
    simp only [h1, h2, h3, h4]
    split
    · simp only [Res.trace, List.drop_left]
      refine ⟨by simp [Event.isSign], by simp [Event.isSend], fun stx' hm => ?_⟩
      simpa only [h1, h2, h3] using hstx stx' (by simpa using hm)
    · split
      · simp only [Res.trace, List.drop_left]
        refine ⟨by simp [Event.isSign], by simp [Event.isSend], fun stx' hm => ?_⟩
        simpa only [h1, h2, h3] using hstx stx' (by simpa using hm)
      · split
        · simp only [Res.trace, List.drop_left]
          refine ⟨by simp [Event.isSign], by simp [Event.isSend], fun stx' hm => ?_⟩
          simpa only [h1, h2, h3] using hstx stx' (by simpa using hm)
        · simp only [Res.trace, List.drop_left]
          refine ⟨by simp [Event.isSign], by simp [Event.isSend], fun stx' hm => ?_⟩
          simpa only [h1, h2, h3] using hstx stx' (by simpa using hm)

/-- The node fails the chain-id query: nothing is signed or submitted.  A witness of
C6. -/
theorem deployContract_steps_in_order_witness :
    deployContract { scripted [] [] with networkID := fun _ => .error "down" } lib0 key0 [] =
      .exit 1 [.pendingNonceAt ⟨List.replicate 20 1⟩, .readFile "SimpleStorage.bin",
        .networkID, .log "Failed to get network ID: down"] :=
  (deployContract_steps_in_order
    { scripted [] [] with networkID := fun _ => .error "down" } lib0 key0 []).2.2.1
    7 [96, 128] "down" rfl rfl rfl

/-- C7, as the claim states it, fails: the operator enters a well-formed address for the
Set action, the binding instance cannot be created, and the process ends with status 1
without any call of the contract's `set`. -/
theorem set_action_calls_set_once_counterexample :
    menuAnswer (scripted [["Use the SET function "]]
        ["0x00000000000000000000000000000000000000aB\n"]) [] = ["Use the SET function "] ∧
      IsHexAddress (TrimSpace "0x00000000000000000000000000000000000000aB\n") = true ∧
      prompt (scripted [["Use the SET function "]]
        ["0x00000000000000000000000000000000000000aB\n"]) libNoBinding key0 2 [] =
        .exit 1 [welcome, .ask menuLabel menuOptions ["Use the SET function "],
          .print "Processing ...\n \n", .print "Please enter the contract address: ",
          .readLine "0x00000000000000000000000000000000000000aB\n",
          .newSimpleStorage ⟨List.replicate 19 0 ++ [171]⟩,
          .log "Failed to load contract instance: no ABI"] ∧
      (prompt (scripted [["Use the SET function "]]
        ["0x00000000000000000000000000000000000000aB\n"]) libNoBinding key0 2 []).trace.countP
        Event.isSetCall = 0 := by
  decide

/-- C7 (amended).  The operator enters a well-formed contract address for the Set
action.  If the binding instance for that address cannot be created, or the transactor
cannot be built, the process ends with status 1 after the fatal log of that step and the
contract's `set` is not called.  If both are created without error, `set` is called
exactly once: on the instance the binding gives for exactly that address, with the
transactor built from the signing key of the process for chain id 1337, and with the
integer 42 (the conversion of the `uint` 42 through `int64` leaves it unchanged).  The
call does not depend on anything else the operator typed nor on the chain id of the
node, which the action never asks for.  When the call succeeds the hash of the
transaction the binding returned is printed, then `Done !`, and the menu loop starts
again; when it fails the process ends with status 1. -/
theorem set_action_calls_set_once (w : World) (lib : Lib) (key : PrivateKey) (fuel : Nat)
    (t : Trace) (line : String)
    (hsel : menuAnswer w t = ["Use the SET function "])
    (hline : w.readString (afterMenu w t ++ [.print "Processing ...\n \n",
      .print "Please enter the contract address: "]) = line)
    (hgood : IsHexAddress (TrimSpace line) = true) :
    int64OfUint 42 = 42 ∧
    (∀ e, lib.newSimpleStorage (HexToAddress (TrimSpace line)) = .error e →
      prompt w lib key (fuel + 1) t =
        .exit 1 (afterMenu w t ++ [.print "Processing ...\n \n",
          .print "Please enter the contract address: ", .readLine line,
          .newSimpleStorage (HexToAddress (TrimSpace line)),
          .log ("Failed to load contract instance: " ++ e)])) ∧
    (∀ inst e, lib.newSimpleStorage (HexToAddress (TrimSpace line)) = .ok inst →
      lib.newKeyedTransactorWithChainID key 1337 = .error e →
      prompt w lib key (fuel + 1) t =
        .exit 1 (afterMenu w t ++ [.print "Processing ...\n \n",
          .print "Please enter the contract address: ", .readLine line,
          .newSimpleStorage (HexToAddress (TrimSpace line)),
          .print ("Contract instance is loaded:  " ++ lib.fmtInstance inst ++ "\n"),
          .newKeyedTransactor key 1337,
          .log ("Failed to create authorized transactor: " ++ e)])) ∧
    (∀ inst auth tx, lib.newSimpleStorage (HexToAddress (TrimSpace line)) = .ok inst →
      lib.newKeyedTransactorWithChainID key 1337 = .ok auth →
      w.setCall (afterMenu w t ++ [.print "Processing ...\n \n",
        .print "Please enter the contract address: ", .readLine line,
        .newSimpleStorage (HexToAddress (TrimSpace line)),
        .print ("Contract instance is loaded:  " ++ lib.fmtInstance inst ++ "\n"),
        .newKeyedTransactor key 1337]) inst auth 42 = .ok tx →
      prompt w lib key (fuel + 1) t =
        prompt w lib key fuel (afterMenu w t ++ [.print "Processing ...\n \n",
          .print "Please enter the contract address: ", .readLine line,
          .newSimpleStorage (HexToAddress (TrimSpace line)),
          .print ("Contract instance is loaded:  " ++ lib.fmtInstance inst ++ "\n"),
          .newKeyedTransactor key 1337, .setCall inst auth 42,
          .print ("Transaction sent: " ++ lib.hashHex (lib.txHash tx) ++ "\n"),
          .print "Done !\n \n"])) ∧
    (∀ inst auth e, lib.newSimpleStorage (HexToAddress (TrimSpace line)) = .ok inst →
      lib.newKeyedTransactorWithChainID key 1337 = .ok auth →
      w.setCall (afterMenu w t ++ [.print "Processing ...\n \n",
        .print "Please enter the contract address: ", .readLine line,
        .newSimpleStorage (HexToAddress (TrimSpace line)),
        .print ("Contract instance is loaded:  " ++ lib.fmtInstance inst ++ "\n"),
        .newKeyedTransactor key 1337]) inst auth 42 = .error e →
      prompt w lib key (fuel + 1) t =
        .exit 1 (afterMenu w t ++ [.print "Processing ...\n \n",
          .print "Please enter the contract address: ", .readLine line,
          .newSimpleStorage (HexToAddress (TrimSpace line)),
          .print ("Contract instance is loaded:  " ++ lib.fmtInstance inst ++ "\n"),
          .newKeyedTransactor key 1337, .setCall inst auth 42,
          .log ("Failed to call contract method: " ++ e)])) ∧
    (∀ inst auth t1, lib.newSimpleStorage (HexToAddress (TrimSpace line)) = .ok inst →
      lib.newKeyedTransactorWithChainID key 1337 = .ok auth →
      ((set w lib key (HexToAddress (TrimSpace line)) 42 t1).trace.drop
        t1.length).countP Event.isSetCall = 1) ∧
    (∀ t1, (∀ inst auth, lib.newSimpleStorage (HexToAddress (TrimSpace line)) = .ok inst →
        lib.newKeyedTransactorWithChainID key 1337 ≠ .ok auth) →
      ((set w lib key (HexToAddress (TrimSpace line)) 42 t1).trace.drop
        t1.length).countP Event.isSetCall = 0 ∧
      ∃ c t2, set w lib key (HexToAddress (TrimSpace line)) 42 t1 = .exit c t2 ∧ c ≠ 0) ∧
    (∀ t1, Event.networkID ∉
      (set w lib key (HexToAddress (TrimSpace line)) 42 t1).trace.drop t1.length) := by
  have h42 : int64OfUint 42 = 42 := by decide
  have hread : getContractAddressFromUser w (afterMenu w t ++ [.print "Processing ...\n \n"]) =
      .ok (HexToAddress (TrimSpace line))
        (afterMenu w t ++ [.print "Processing ...\n \n",
          .print "Please enter the contract address: ", .readLine line]) := by
    rw [getContractAddressFromUser_eq]
    simp only [List.append_assoc, List.singleton_append, List.cons_append, List.nil_append]
      at hline ⊢
    rw [hline, hgood]
    simp
  have hrun : prompt w lib key (fuel + 1) t =
      (set w lib key (HexToAddress (TrimSpace line)) 42 >>= fun _ =>
        fmtPrintln "Done !\n " >>= fun _ => prompt w lib key fuel)
        (afterMenu w t ++ [.print "Processing ...\n \n",
          .print "Please enter the contract address: ", .readLine line]) := by
    have h1 := prompt_set w lib key fuel t hsel
    have h2 : prompt w lib key (fuel + 1) t =
        (getContractAddressFromUser w >>= fun contractAddress =>
          set w lib key contractAddress 42 >>= fun _ =>
          fmtPrintln "Done !\n " >>= fun _ => prompt w lib key fuel)
          (afterMenu w t ++ [.print "Processing ...\n \n"]) := by
      simpa only [afterMenu, hsel, List.append_assoc, List.singleton_append,
        List.cons_append, List.nil_append] using h1
    rw [h2, bind_apply]
    simp only [Run.bind, hread, bind_apply]
  refine ⟨h42, fun e he => ?_, fun inst e hinst he => ?_,
    fun inst auth tx hinst hauth htx => ?_, fun inst auth e hinst hauth he => ?_,
    fun inst auth t1 hinst hauth => ?_, fun t1 hno => ?_, fun t1 => ?_⟩
  · rw [hrun, bind_apply]
    simp only [Run.bind, set_eq, he, List.append_assoc, List.singleton_append,
      List.cons_append, List.nil_append]
  · rw [hrun, bind_apply]
    simp only [Run.bind, set_eq, hinst, he, List.append_assoc, List.singleton_append,
      List.cons_append, List.nil_append]
  · rw [hrun, bind_apply]
    simp only [Run.bind, set_eq, hinst, hauth, h42, List.append_assoc, List.singleton_append,
      List.cons_append, List.nil_append] at htx ⊢
    simp only [htx, bind_apply, Run.bind, fmtPrintln, emit, List.append_assoc,
      List.singleton_append, List.cons_append, List.nil_append, String.reduceAppend]
  · rw [hrun, bind_apply]
    simp only [Run.bind, set_eq, hinst, hauth, h42, List.append_assoc, List.singleton_append,
      List.cons_append, List.nil_append] at he ⊢
    simp only [he]
  · rw [set_eq]
    simp only [hinst, hauth]
    split <;> simp [Res.trace, Event.isSetCall]
  · rw [set_eq]
    rcases except_cases (lib.newSimpleStorage (HexToAddress (TrimSpace line))) with
      ⟨e, h1⟩ | ⟨inst, h1⟩
    · simp [h1, Res.trace, Event.isSetCall]
    rcases except_cases (lib.newKeyedTransactorWithChainID key 1337) with
      ⟨e, h2⟩ | ⟨auth, h2⟩
    · simp [h1, h2, Res.trace, Event.isSetCall]
    · exact absurd h2 (hno inst auth h1)
  · rw [set_eq]
    repeat' split
    all_goals simp [Res.trace]

/-- The operator selects `Use the SET function `, types a well-formed address and then
selects `Exit`: a witness of the amended C7. -/
theorem set_action_calls_set_once_witness :
    menuAnswer (scripted [["Use the SET function "]]
        ["0x00000000000000000000000000000000000000aB\n"]) [] = ["Use the SET function "] ∧
      IsHexAddress (TrimSpace "0x00000000000000000000000000000000000000aB\n") = true ∧
      prompt (scripted [["Use the SET function "]]
        ["0x00000000000000000000000000000000000000aB\n"]) lib0 key0 2 [] =
        .exit 0 [welcome, .ask menuLabel menuOptions ["Use the SET function "],
          .print "Processing ...\n \n", .print "Please enter the contract address: ",
          .readLine "0x00000000000000000000000000000000000000aB\n",
          .newSimpleStorage ⟨List.replicate 19 0 ++ [171]⟩,
          .print "Contract instance is loaded:  &binding\n",
          .newKeyedTransactor key0 1337,
          .setCall ⟨⟨List.replicate 19 0 ++ [171]⟩⟩ ⟨key0, 1337⟩ 42,
          .print "Transaction sent: 0x32\n", .print "Done !\n \n", welcome,
          .ask menuLabel menuOptions ["Exit"], .print "Bye Bye\n \n"] ∧
      prompt (scripted [["Use the SET function "]]
        ["0x00000000000000000000000000000000000000aB\n"]) libNoTransactor key0 2 [] =
        .exit 1 [welcome, .ask menuLabel menuOptions ["Use the SET function "],
          .print "Processing ...\n \n", .print "Please enter the contract address: ",
          .readLine "0x00000000000000000000000000000000000000aB\n",
          .newSimpleStorage ⟨List.replicate 19 0 ++ [171]⟩,
          .print "Contract instance is loaded:  &binding\n",
          .newKeyedTransactor key0 1337,
          .log "Failed to create authorized transactor: no chain ID specified"] :=
  ⟨by decide, by decide,
    ((set_action_calls_set_once (scripted [["Use the SET function "]]
      ["0x00000000000000000000000000000000000000aB\n"]) lib0 key0 1 []
      "0x00000000000000000000000000000000000000aB\n"
      (by decide) (by decide) (by decide)).2.2.2.1
      ⟨HexToAddress (TrimSpace "0x00000000000000000000000000000000000000aB\n")⟩ ⟨key0, 1337⟩
      (NewContractCreation 42 0 0 none []) rfl rfl rfl).trans (by decide),
    ((set_action_calls_set_once (scripted [["Use the SET function "]]
      ["0x00000000000000000000000000000000000000aB\n"]) libNoTransactor key0 1 []
      "0x00000000000000000000000000000000000000aB\n"
      (by decide) (by decide) (by decide)).2.2.1
      ⟨HexToAddress (TrimSpace "0x00000000000000000000000000000000000000aB\n")⟩
      "no chain ID specified" rfl rfl).trans (by decide)⟩

/-- C8.  When the operator can select only offered options, the process exits with
status 0 exactly after a single selection of `Exit`.  A run of `main` never returns and
never panics: it is still going, or it ended with status 0 and the last two events are
the menu answered by the single selection `Exit` and the farewell line, or it ended with
status 1 and the last event is a fatal log.  And a single selection of `Exit` ends the
process with status 0 at once: no call and no prompt follows the selection. -/
theorem exit_status_zero_iff_exit_selected (w : World) (lib : Lib) (hw : OffersOnly w)
    (fuel : Nat) :
    (match main w lib fuel [] with
      | .ok _ _ => False
      | .panic _ => False
      | .running _ => True
      | .exit c t =>
        (c = 0 ∧ [.ask menuLabel menuOptions ["Exit"], .print "Bye Bye\n \n"] <:+ t) ∨
          (c = 1 ∧ ∃ msg, t.getLast? = some (.log msg))) ∧
      ∀ (key : PrivateKey) (t : Trace), menuAnswer w t = ["Exit"] →
        prompt w lib key (fuel + 1) t =
          .exit 0 (t ++ [welcome, .ask menuLabel menuOptions ["Exit"],
            .print "Bye Bye\n \n"]) := by
  refine ⟨?_, fun key t h => prompt_exit w lib key fuel t h⟩
  have h := main_fair w lib hw fuel []
  cases hm : main w lib fuel [] <;> rw [hm] at h <;> exact h

/-- The operator selects `Exit` at the first menu: a witness of C8. -/
theorem exit_status_zero_iff_exit_selected_witness :
    OffersOnly (scripted [["Exit"]] []) ∧
      main (scripted [["Exit"]] []) lib0 3 [] =
        .exit 0 [.dial "http://localhost:8545",
          .hexToECDSA "8f2a55949038a9610f50fb23b5883af3b4ecb3c3bb792cbcefbd1542c692be63",
          welcome, .ask menuLabel menuOptions ["Exit"], .print "Bye Bye\n \n"] :=
  ⟨offersOnly_scripted _ _,
    (show main (scripted [["Exit"]] []) lib0 3 [] =
        prompt (scripted [["Exit"]] []) lib0 ⟨1⟩ 3 [.dial "http://localhost:8545",
          .hexToECDSA "8f2a55949038a9610f50fb23b5883af3b4ecb3c3bb792cbcefbd1542c692be63"]
      by decide).trans
      ((exit_status_zero_iff_exit_selected (scripted [["Exit"]] []) lib0
        (offersOnly_scripted _ _) 2).2 ⟨1⟩
        [.dial "http://localhost:8545",
          .hexToECDSA "8f2a55949038a9610f50fb23b5883af3b4ecb3c3bb792cbcefbd1542c692be63"]
        (by decide))⟩

/-- C9.  Every line typed at the transaction-hash prompt is accepted:
`getTransactionHashFromUser` never ends the process and returns `HexToHash` of the
trimmed text, whatever the text is.  After a single selection of
`Check the transaction ` the receipt query for that hash is always the next call.  And
when the trimmed text is exactly 64 hex digits, with or without the prefix `0x`, the
hash passed to the query is the 32 bytes the digits denote. -/
theorem hash_input_is_passed_through (w : World) (lib : Lib) (key : PrivateKey)
    (fuel : Nat) (t : Trace) (line : String)
    (hline : w.readString (afterMenu w t ++ [.print "Processing ...\n \n",
      .print "Please enter the transaction hash: "]) = line)
    (hsel : menuAnswer w t = ["Check the transaction "]) :
    (∀ t1, getTransactionHashFromUser w t1 =
      .ok (HexToHash
          (TrimSpace (w.readString (t1 ++ [.print "Please enter the transaction hash: "]))))
        (t1 ++ [.print "Please enter the transaction hash: ",
          .readLine (w.readString (t1 ++ [.print "Please enter the transaction hash: "]))])) ∧
    prompt w lib key (fuel + 1) t =
      (checkTransaction w (HexToHash (TrimSpace line)) >>= fun _ =>
        fmtPrintln "Done !\n " >>= fun _ => prompt w lib key fuel)
        (afterMenu w t ++ [.print "Processing ...\n \n",
          .print "Please enter the transaction hash: ", .readLine line]) ∧
    (afterMenu w t ++ [.print "Processing ...\n \n",
      .print "Please enter the transaction hash: ", .readLine line,
      .transactionReceipt (HexToHash (TrimSpace line))]) <+:
      (prompt w lib key (fuel + 1) t).trace ∧
    (∀ digits : List Nat, digits.length = 64 → digits.all isHexCharacter = true →
      (goBytes (TrimSpace line) = digits ∨ goBytes (TrimSpace line) = 48 :: 120 :: digits) →
      (HexToHash (TrimSpace line)).bytes.length = 32 ∧
      (∀ b ∈ (HexToHash (TrimSpace line)).bytes, b < 256) ∧
      bytesValue (HexToHash (TrimSpace line)).bytes = hexValue digits) := by
  have hread : getTransactionHashFromUser w (afterMenu w t ++ [.print "Processing ...\n \n"]) =
      .ok (HexToHash (TrimSpace line))
        (afterMenu w t ++ [.print "Processing ...\n \n",
          .print "Please enter the transaction hash: ", .readLine line]) := by
    rw [getTransactionHashFromUser_eq]
    simp only [List.append_assoc, List.singleton_append, List.cons_append, List.nil_append]
      at hline ⊢
    rw [hline]
  have hrun : prompt w lib key (fuel + 1) t =
      (checkTransaction w (HexToHash (TrimSpace line)) >>= fun _ =>
        fmtPrintln "Done !\n " >>= fun _ => prompt w lib key fuel)
        (afterMenu w t ++ [.print "Processing ...\n \n",
          .print "Please enter the transaction hash: ", .readLine line]) := by
    have h1 := prompt_check w lib key fuel t hsel
    have h2 : prompt w lib key (fuel + 1) t =
        (getTransactionHashFromUser w >>= fun txHash =>
          checkTransaction w txHash >>= fun _ =>
          fmtPrintln "Done !\n " >>= fun _ => prompt w lib key fuel)
          (afterMenu w t ++ [.print "Processing ...\n \n"]) := by
      simpa only [afterMenu, hsel, List.append_assoc, List.singleton_append,
        List.cons_append, List.nil_append] using h1
    rw [h2, bind_apply]
    simp only [Run.bind, hread, bind_apply]
  refine ⟨fun t1 => getTransactionHashFromUser_eq w t1, hrun, ?_,
    fun digits hlen hall hs => HexToHash_of_digits _ digits hlen hall hs⟩
  rw [hrun, bind_apply]
  have hfirst : ∀ t1, (t1 ++ [Event.transactionReceipt (HexToHash (TrimSpace line))]) <+:
      (checkTransaction w (HexToHash (TrimSpace line)) t1).trace := by
    intro t1
    rw [checkTransaction_eq]
    repeat' split
    all_goals simp [Res.trace]
  have hrest : ∀ (u : Unit), Run.Extends
      (fmtPrintln "Done !\n " >>= fun _ => prompt w lib key fuel) := fun _ =>
    extends_bind (extends_fmtPrintln _) fun _ => extends_prompt w lib key fuel
  have h0 := hfirst (afterMenu w t ++ [.print "Processing ...\n \n",
    .print "Please enter the transaction hash: ", .readLine line])
  simp only [List.append_assoc, List.singleton_append, List.cons_append, List.nil_append]
    at h0 ⊢
  unfold Run.bind
  cases hc : checkTransaction w (HexToHash (TrimSpace line)) _ with
  | ok a t1 =>
    rw [hc] at h0
    exact h0.trans (hrest a t1)
  | exit c t1 => rw [hc] at h0; exact h0
  | panic t1 => rw [hc] at h0; exact h0
  | running t1 => rw [hc] at h0; exact h0

/-- The operator selects `Check the transaction ` and types 64 hex digits after `0x`: a
witness of C9. -/
theorem hash_input_is_passed_through_witness :
    menuAnswer (scripted [["Check the transaction "]]
        ["0x00000000000000000000000000000000000000000000000000000000000001fF\n"]) [] =
        ["Check the transaction "] ∧
      (HexToHash (TrimSpace
        "0x00000000000000000000000000000000000000000000000000000000000001fF\n")).bytes =
        List.replicate 30 0 ++ [1, 255] ∧
      (afterMenu (scripted [["Check the transaction "]]
          ["0x00000000000000000000000000000000000000000000000000000000000001fF\n"]) [] ++
        [.print "Processing ...\n \n", .print "Please enter the transaction hash: ",
          .readLine "0x00000000000000000000000000000000000000000000000000000000000001fF\n",
          .transactionReceipt ⟨List.replicate 30 0 ++ [1, 255]⟩]) <+:
        (prompt (scripted [["Check the transaction "]]
          ["0x00000000000000000000000000000000000000000000000000000000000001fF\n"])
          lib0 key0 2 []).trace :=
  ⟨by decide, by decide,
    (hash_input_is_passed_through (scripted [["Check the transaction "]]
      ["0x00000000000000000000000000000000000000000000000000000000000001fF\n"]) lib0 key0 1 []
      "0x00000000000000000000000000000000000000000000000000000000000001fF\n"
      (by decide) (by decide)).2.2.1⟩

/-- C10.  A single selection of one of the four actions runs exactly the action it
names: `Deploy the contract ` runs `deployContract`, `Check the transaction ` the hash
prompt and `checkTransaction`, `Use the SET function ` the address prompt and `set`,
`Use the GET function ` the address prompt and `get`; when the action returns, `Done !`
is printed and the menu loop starts again, and nothing else is run for the selection;
a menu loop that starts shows the menu and asks the operator.
The action `get` adds only reading events to the history: it signs nothing, builds no
transactor, submits no transaction and does not call `set`; once the binding instance is
loaded it issues the read-only call. -/
theorem single_selection_runs_its_action (w : World) (lib : Lib) (key : PrivateKey)
    (fuel : Nat) (t : Trace) :
    (menuAnswer w t = ["Deploy the contract "] →
      prompt w lib key (fuel + 1) t =
        (deployContract w lib key >>= fun _ =>
          fmtPrintln "Done !\n " >>= fun _ => prompt w lib key fuel)
          (afterMenu w t ++ [.print "Processing ...\n \n"])) ∧
    (menuAnswer w t = ["Check the transaction "] →
      prompt w lib key (fuel + 1) t =
        (getTransactionHashFromUser w >>= fun txHash =>
          checkTransaction w txHash >>= fun _ =>
          fmtPrintln "Done !\n " >>= fun _ => prompt w lib key fuel)
          (afterMenu w t ++ [.print "Processing ...\n \n"])) ∧
    (menuAnswer w t = ["Use the SET function "] →
      prompt w lib key (fuel + 1) t =
        (getContractAddressFromUser w >>= fun contractAddress =>
          set w lib key contractAddress 42 >>= fun _ =>
          fmtPrintln "Done !\n " >>= fun _ => prompt w lib key fuel)
          (afterMenu w t ++ [.print "Processing ...\n \n"])) ∧
    (menuAnswer w t = ["Use the GET function "] →
      prompt w lib key (fuel + 1) t =
        (getContractAddressFromUser w >>= fun contractAddress =>
          get w lib contractAddress >>= fun _ =>
          fmtPrintln "Done !\n " >>= fun _ => prompt w lib key fuel)
          (afterMenu w t ++ [.print "Processing ...\n \n"])) ∧
    (∀ t1 : Trace, afterMenu w t1 <+: (prompt w lib key (fuel + 1) t1).trace) ∧
    (∀ (a : Address) (t1 : Trace), ∃ new, (get w lib a t1).trace = t1 ++ new ∧
      (∀ e ∈ new, e.isWrite = false) ∧
      ∀ inst, lib.newSimpleStorage a = .ok inst → Event.getCall inst ∈ new) := by
  refine ⟨fun h => ?_, fun h => ?_, fun h => ?_, fun h => ?_,
    fun t1 => prompt_shows_menu w lib key fuel t1, fun a t1 => ?_⟩
  · have h1 := prompt_deploy w lib key fuel t h
    simpa only [afterMenu, h, List.append_assoc, List.singleton_append, List.cons_append,
      List.nil_append] using h1
  · have h1 := prompt_check w lib key fuel t h
    simpa only [afterMenu, h, List.append_assoc, List.singleton_append, List.cons_append,
      List.nil_append] using h1
  · have h1 := prompt_set w lib key fuel t h
    simpa only [afterMenu, h, List.append_assoc, List.singleton_append, List.cons_append,
      List.nil_append] using h1
  · have h1 := prompt_get w lib key fuel t h
    simpa only [afterMenu, h, List.append_assoc, List.singleton_append, List.cons_append,
      List.nil_append] using h1
  · rw [get_eq]
    cases h1 : lib.newSimpleStorage a with
    | error e =>
      exact ⟨_, rfl, by simp [Event.isWrite], by simp⟩
    | ok inst =>
      simp only []
      cases w.getCall _ inst with
      | error e => exact ⟨_, rfl, by simp [Event.isWrite], by simp⟩
      | ok value => exact ⟨_, rfl, by simp [Event.isWrite], by simp⟩

/-- The operator selects `Use the GET function `, types a well-formed address and then
selects `Exit`: a witness of C10. -/
theorem single_selection_runs_its_action_witness :
    menuAnswer (scripted [["Use the GET function "]]
        ["0x00000000000000000000000000000000000000aB\n"]) [] = ["Use the GET function "] ∧
      prompt (scripted [["Use the GET function "]]
        ["0x00000000000000000000000000000000000000aB\n"]) lib0 key0 2 [] =
        .exit 0 [welcome, .ask menuLabel menuOptions ["Use the GET function "],
          .print "Processing ...\n \n", .print "Please enter the contract address: ",
          .readLine "0x00000000000000000000000000000000000000aB\n",
          .newSimpleStorage ⟨List.replicate 19 0 ++ [171]⟩,
          .print "Contract instance is loaded:  &binding\n",
          .getCall ⟨⟨List.replicate 19 0 ++ [171]⟩⟩,
          .print "Stored value is: 42\n", .print "Done !\n \n", welcome,
          .ask menuLabel menuOptions ["Exit"], .print "Bye Bye\n \n"] :=
  ⟨by decide,
    ((single_selection_runs_its_action (scripted [["Use the GET function "]]
      ["0x00000000000000000000000000000000000000aB\n"]) lib0 key0 1 []).2.2.2.1
      (by decide)).trans (by decide)⟩

end ContractCLI
